import Mathlib

/-!
Verification of the CEMA-metadata reference-parsing scripts.

The Python sources are shallowly embedded: strings are Lean `String`s,
Python `re` patterns are transcribed into a small regular-expression AST
(`RE`) interpreted by a backtracking matcher (`reM`) that mirrors the
CPython `re` engine's leftmost / greedy / lazy backtracking semantics,
dictionaries with insertion order (`OrderedDict`, `dict`) are association
lists updated in place by `setKey`/`jset`, and file/network I/O is factored
out: the pure per-citation transformations take their inputs (lines of the
source file, parse outcomes of remote responses) as arguments.

Character-level conventions: Python's `str.lower`, `\s`, `\d`, `\w` and
`re.IGNORECASE` are full-Unicode; the embedding implements them on ASCII
and Latin-1 (the alphabet of every pattern and keyword in the scripts),
leaving other characters unchanged.
-/

namespace CEMA

/-- Python `str.lower` on ASCII and Latin-1: `A`-`Z` and `À`-`Þ` (except
the multiplication sign `×`, U+00D7) map to their lowercase forms 32 code
points higher; other characters are unchanged. -/
def pyLowerChar (c : Char) : Char :=
  if 'A' ≤ c ∧ c ≤ 'Z' then Char.ofNat (c.toNat + 32)
  else if 0xC0 ≤ c.toNat ∧ c.toNat ≤ 0xDE ∧ c.toNat ≠ 0xD7 then Char.ofNat (c.toNat + 32)
  else c

/-- Python `str.upper` on ASCII and Latin-1 (inverse direction of
`pyLowerChar`; `ß` and `ÿ`, whose uppercase forms leave Latin-1, are kept
unchanged). -/
def pyUpperChar (c : Char) : Char :=
  if 'a' ≤ c ∧ c ≤ 'z' then Char.ofNat (c.toNat - 32)
  else if 0xE0 ≤ c.toNat ∧ c.toNat ≤ 0xFE ∧ c.toNat ≠ 0xF7 then Char.ofNat (c.toNat - 32)
  else c

def pyLower (s : String) : String := String.mk (s.data.map pyLowerChar)

/-- Python whitespace for `str.strip()` and the regex class `\s`:
space, tab, newline, carriage return, vertical tab, form feed. -/
def pyIsSpace (c : Char) : Bool :=
  c = ' ' || c = '\t' || c = '\n' || c = '\r' || c.toNat = 0x0B || c.toNat = 0x0C

/-- Regex `\w` (word character) on ASCII and Latin-1: letters, digits,
underscore; Latin-1 letters are U+00C0-U+00FF without `×` and `÷`. -/
def isWordChar (c : Char) : Bool :=
  ('a' ≤ c && c ≤ 'z') || ('A' ≤ c && c ≤ 'Z') || ('0' ≤ c && c ≤ '9') || c = '_'
    || (0xC0 ≤ c.toNat && c.toNat ≤ 0xFF && c.toNat ≠ 0xD7 && c.toNat ≠ 0xF7)

def dropWhileSpace (l : List Char) : List Char := l.dropWhile pyIsSpace

/-- Python `str.strip()` (no argument): remove leading and trailing
whitespace. -/
def pyStrip (s : String) : String :=
  String.mk ((dropWhileSpace ((dropWhileSpace s.data.reverse)).reverse))

/-- Python `str.strip(chars)`: remove leading and trailing characters that
belong to `chars`. -/
def pyStripChars (chars : List Char) (s : String) : String :=
  let f := fun (l : List Char) => l.dropWhile (fun c => chars.contains c)
  String.mk ((f ((f s.data.reverse)).reverse))

def isPrefixCh : List Char → List Char → Bool
  | [], _ => true
  | _ :: _, [] => false
  | a :: as, b :: bs => a = b && isPrefixCh as bs

def containsSubList (needle : List Char) : List Char → Bool
  | [] => needle.isEmpty
  | c :: t => isPrefixCh needle (c :: t) || containsSubList needle t

/-- Python `sub in hay` for strings. -/
def strContains (hay sub : String) : Bool := containsSubList sub.data hay.data

def splitOnAux (sep : List Char) : Nat → List Char → List Char → List (List Char)
  | _, acc, [] => [acc.reverse]
  | 0, acc, rest => [acc.reverse ++ rest]
  | fuel + 1, acc, c :: t =>
    if sep ≠ [] ∧ isPrefixCh sep (c :: t) then
      acc.reverse :: splitOnAux sep fuel [] (t.drop (sep.length - 1))
    else
      splitOnAux sep fuel (c :: acc) t

/-- Python `str.split(sep)` for a non-empty separator string (the fuel,
one unit per consumed character, makes the recursion structural). -/
def pySplit (sep : String) (s : String) : List String :=
  (splitOnAux sep.data (s.length + 1) [] s.data).map String.mk

/-- Python `str.split(sep, 1)[1]`: the text after the first occurrence of
the separator (the string itself when the separator does not occur). -/
def splitOnceTail (sep : String) (s : String) : String :=
  match pySplit sep s with
  | [] => s
  | [_] => s
  | _ :: t :: rest =>
    -- re-join the remaining pieces with the separator
    String.intercalate sep (t :: rest)

end CEMA

namespace CEMA

/-- Abstract syntax of the Python `re` patterns used by the scripts.
`cls` is a single-character class, `star`/`opt` are greedy, `starL` is the
lazy `*?`, `grp` a numbered capturing group, `bos`/`eol` the anchors `^`
and `$`, `wb` the word boundary `\b`. -/
inductive RE where
  | eps : RE
  | cls (p : Char → Bool) : RE
  | cat (a b : RE) : RE
  | alt (a b : RE) : RE
  | star (a : RE) : RE
  | starL (a : RE) : RE
  | opt (a : RE) : RE
  | grp (n : Nat) (a : RE) : RE
  | bos : RE
  | eol : RE
  | wb : RE

namespace RE

def plus (a : RE) : RE := cat a (star a)

def plusL (a : RE) : RE := cat a (starL a)

/-- Exactly `n` repetitions, as in `\d{4}`. -/
def rep (a : RE) : Nat → RE
  | 0 => eps
  | n + 1 => cat a (rep a n)

/-- Literal character. -/
def chr (c : Char) : RE := cls (fun x => x = c)

/-- Literal character under `re.IGNORECASE` (case folded on ASCII/Latin-1). -/
def chrI (c : Char) : RE := cls (fun x => pyLowerChar x = pyLowerChar c)

def lit (s : String) : RE := s.data.foldr (fun c r => cat (chr c) r) eps

def litI (s : String) : RE := s.data.foldr (fun c r => cat (chrI c) r) eps

/-- Character-class predicate under `re.IGNORECASE`: a character matches
when it or one of its case variants belongs to the class. -/
def ci (p : Char → Bool) (c : Char) : Bool :=
  p c || p (pyLowerChar c) || p (pyUpperChar c)

def size : RE → Nat
  | eps => 1
  | cls _ => 1
  | cat a b => size a + size b + 1
  | alt a b => size a + size b + 1
  | star a => size a + 1
  | starL a => size a + 1
  | opt a => size a + 1
  | grp _ a => size a + 1
  | bos => 1
  | eol => 1
  | wb => 1

end RE

/-- Captured groups of one match: group number paired with the consumed
characters, most recent binding first (as Python keeps the last repetition
of a group). -/
abbrev Groups := List (Nat × List Char)

/-- Backtracking matcher in continuation-passing style, mirroring the
CPython `re` engine's semantics on the constructs of `RE`: alternation
prefers its left branch, `star`/`opt` are greedy, `starL` is lazy, and a
failure of the continuation backtracks into the previous choice points.
`pre` is the reversed already-consumed text (for `\b` and `^`), `rest` the
remaining input. A repetition whose iteration consumes nothing stops, as
in CPython. `fuel` bounds the call depth; every driver supplies enough
fuel for its pattern and input (see `stdFuel`). -/
def reM {σ : Type} : Nat → RE → List Char → List Char → Groups →
    (List Char → List Char → Groups → Option σ) → Option σ
  | 0, _, _, _, _, _ => none
  | fuel + 1, r, pre, rest, g, k =>
    match r with
    | .eps => k pre rest g
    | .cls p =>
      match rest with
      | [] => none
      | c :: cs => if p c then k (c :: pre) cs g else none
    | .cat a b => reM fuel a pre rest g (fun pre1 rest1 g1 => reM fuel b pre1 rest1 g1 k)
    | .alt a b =>
      match reM fuel a pre rest g k with
      | some res => some res
      | none => reM fuel b pre rest g k
    | .star a =>
      match reM fuel a pre rest g (fun pre1 rest1 g1 =>
          if rest1.length < rest.length then reM fuel (.star a) pre1 rest1 g1 k else none) with
      | some res => some res
      | none => k pre rest g
    | .starL a =>
      match k pre rest g with
      | some res => some res
      | none => reM fuel a pre rest g (fun pre1 rest1 g1 =>
          if rest1.length < rest.length then reM fuel (.starL a) pre1 rest1 g1 k else none)
    | .opt a =>
      match reM fuel a pre rest g k with
      | some res => some res
      | none => k pre rest g
    | .grp n a =>
      reM fuel a pre rest g (fun pre1 rest1 g1 =>
        k pre1 rest1 ((n, (pre1.take (pre1.length - pre.length)).reverse) :: g1))
    | .bos => match pre with | [] => k pre rest g | _ :: _ => none
    | .eol => match rest with | [] => k pre rest g | _ :: _ => none
    | .wb =>
      let pw := match pre with | [] => false | c :: _ => isWordChar c
      let nw := match rest with | [] => false | c :: _ => isWordChar c
      if pw ≠ nw then k pre rest g else none

/-- Fuel that bounds the matcher's call depth for pattern `r` on input of
length `n`: along one continuation chain each syntactic node costs one
call and each repetition iteration consumes at least one character. -/
def stdFuel (r : RE) (n : Nat) : Nat := (r.size + 2) * (n + 2)

/-- Value of a captured group, in input order. -/
def grpGet (g : Groups) (n : Nat) : Option String :=
  (g.find? (fun e => e.1 = n)).map (fun e => String.mk e.2)

/-- Python `re.match`: anchored attempt at the start of the text.
Group 0 is the whole match. -/
def reMatch0 (r : RE) (s : List Char) : Option Groups :=
  reM (stdFuel r s.length) (.grp 0 r) [] s [] (fun _ _ g => some g)

/-- One search step: try a match at the current position, also reporting
the position right after the match (for `re.findall` / `re.sub`). -/
def reTryAt (r : RE) (pre rest : List Char) : Option (Groups × List Char × List Char) :=
  reM (stdFuel r rest.length) (.grp 0 r) pre rest []
    (fun pre1 rest1 g => some (g, pre1, rest1))

/-- Python `re.search`: leftmost match, scanning start positions from the
left. -/
def reSearchAux (r : RE) (pre : List Char) :
    List Char → Option (Groups × List Char × List Char)
  | [] => reTryAt r pre []
  | c :: cs =>
    match reTryAt r pre (c :: cs) with
    | some res => some res
    | none => reSearchAux r (c :: pre) cs

def reSearch (r : RE) (s : String) : Option Groups :=
  (reSearchAux r [] s.data).map (fun x => x.1)

def reSearchB (r : RE) (s : String) : Bool := (reSearch r s).isSome

/-- Python `re.findall` for a pattern with one capturing group: the list
of group `gi` texts over all non-overlapping matches scanned from the
left (an empty whole match advances by one character, as in CPython). -/
def reFindAllAux (r : RE) (gi : Nat) : Nat → List Char → List Char → List String
  | 0, _, _ => []
  | fuel + 1, pre, rest =>
    match reSearchAux r pre rest with
    | none => []
    | some (g, p1, r1) =>
      let item := (grpGet g gi).getD ""
      if r1.length < rest.length then item :: reFindAllAux r gi fuel p1 r1
      else
        match r1 with
        | [] => [item]
        | c :: cs => item :: reFindAllAux r gi fuel (c :: p1) cs

def reFindAll (r : RE) (gi : Nat) (s : String) : List String :=
  reFindAllAux r gi (s.length + 1) [] s.data

/-- Python `re.sub(pattern, "", s)`: delete every non-overlapping match,
scanning from the left. `pre` holds (reversed) the kept output so far;
after a match, the matched span (group 0) is dropped from the consumed
text and scanning continues after it. -/
def reSubAllAux (r : RE) : Nat → List Char → List Char → List Char
  | 0, pre, rest => pre.reverse ++ rest
  | fuel + 1, pre, rest =>
    match reSearchAux r pre rest with
    | none => pre.reverse ++ rest
    | some (g, p1, r1) =>
      let mlen := (((grpGet g 0).getD "").length : Nat)
      let pre2 := p1.drop mlen
      if r1.length < rest.length then
        reSubAllAux r fuel pre2 r1
      else
        match r1 with
        | [] => pre2.reverse
        | c :: cs => reSubAllAux r fuel (c :: pre2) cs

/-- Python `re.sub(pattern, "", s)` (empty replacement). -/
def reSubAll (r : RE) (s : String) : String :=
  String.mk (reSubAllAux r (s.length + 1) [] s.data)

end CEMA

namespace CEMA

/-- JSON-like field value of the rule-based parsers: every publication and
content field is a string, a list of strings (`auteurs`,
`container_editors`) or `null`. -/
inductive JVal where
  | null : JVal
  | s (v : String) : JVal
  | list (vs : List String) : JVal
deriving DecidableEq, Repr

/-- Wrap an optional extractor result the way the scripts store it: `None`
becomes JSON `null`. -/
def optJ : Option String → JVal
  | none => JVal.null
  | some v => JVal.s v

/-- Python dict assignment `d[k] = v` on an insertion-ordered association
list: an existing key keeps its position, a new key is appended at the
end. -/
def setKey : List (String × JVal) → String → JVal → List (String × JVal)
  | [], k, v => [(k, v)]
  | (k0, v0) :: t, k, v => if k0 = k then (k, v) :: t else (k0, v0) :: setKey t k v

/-- Python dict read `d[k]` (the scripts only read keys they created). -/
def getKey : List (String × JVal) → String → JVal
  | [], _ => JVal.null
  | (k0, v0) :: t, k => if k0 = k then v0 else getKey t k

/-- Output record of the rule-based parsers: the three top-level groups,
with `publication` and `content` as insertion-ordered key/value lists
(mirroring the scripts' `OrderedDict`/`dict`). -/
structure Record where
  publication : List (String × JVal)
  content : List (String × JVal)
  remarks : JVal
deriving DecidableEq, Repr

end CEMA

namespace CEMA.ProcessRemainingRefs

/-!
Embedding of `src/process_remaining_refs.py`: the rule-based parser for
references 2001-5083 and its driver loop.
-/

/-- Class `[A-ZÀ-ÝÑ]` (`À`-`Ý` is U+00C0-U+00DD; `Ñ` = U+00D1 lies inside
that range and is kept for fidelity to the source class). -/
def upFrN (c : Char) : Bool :=
  ('A' ≤ c && c ≤ 'Z') || (0xC0 ≤ c.toNat && c.toNat ≤ 0xDD) || c = 'Ñ'

/-- Class `[a-zà-ýñ]` (`à`-`ý` is U+00E0-U+00FD). -/
def loFrN (c : Char) : Bool :=
  ('a' ≤ c && c ≤ 'z') || (0xE0 ≤ c.toNat && c.toNat ≤ 0xFD) || c = 'ñ'

def wsP : RE := .cls pyIsSpace

def digitP : RE := .cls Char.isDigit

/-- Python `create_json_structure(line_num)`: the base record, with
`reference_number` as the first `publication` key. -/
def create_json_structure (line_num : Nat) : Record where
  publication :=
    [("reference_number", .s (toString line_num)),
     ("publication_type", .null),
     ("title", .null),
     ("auteurs", .list []),
     ("place_of_publication", .null),
     ("publisher", .null),
     ("publication_dates", .null),
     ("volume", .null),
     ("tome", .null),
     ("pages", .null),
     ("series", .null),
     ("journal_title", .null),
     ("journal_volume", .null),
     ("journal_issue", .null),
     ("container_title", .null),
     ("container_editors", .list [])]
  content :=
    [("main_institution", .null),
     ("mentioned_place", .null),
     ("region", .null),
     ("country", .null),
     ("institution_type", .null),
     ("religious_order", .null),
     ("temporal_coverage", .null),
     ("document_type", .null)]
  remarks := .null

/-- Pattern `^([A-ZÀ-ÝÑ][A-ZÀ-ÝÑ\s\'-]+(?:\s+[A-ZÀ-ÝÑ]\.?[A-ZÀ-ÝÑ]\.?|\s+[A-ZÀ-ÝÑ][a-zà-ýñ\-]+)+)`
of `extract_authors` (the `^` anchor is supplied by `reMatch0`). -/
def author_pattern : RE :=
  .grp 1 (.cat (.cls upFrN)
    (.cat (RE.plus (.cls (fun c => upFrN c || pyIsSpace c || c = '\'' || c = '-')))
      (RE.plus (.alt
        (.cat (RE.plus wsP) (.cat (.cls upFrN) (.cat (.opt (RE.chr '.'))
          (.cat (.cls upFrN) (.opt (RE.chr '.'))))))
        (.cat (RE.plus wsP) (.cat (.cls upFrN)
          (RE.plus (.cls (fun c => loFrN c || c = '-')))))))))

/-- Pattern `\s*\([^)]*éd\.[^)]*\)` used by `re.sub` to remove editor
markers from the author span. -/
def ed_marker_pattern : RE :=
  .cat (RE.star wsP) (.cat (RE.chr '(')
    (.cat (RE.star (.cls (fun c => c ≠ ')'))) (.cat (RE.lit "éd.")
      (.cat (RE.star (.cls (fun c => c ≠ ')'))) (RE.chr ')')))))

/-- Python `extract_authors(text)`. -/
def extract_authors (text : String) : List String :=
  match reMatch0 author_pattern text.data with
  | none => []
  | some g =>
    let author_str := (grpGet g 1).getD ""
    let author_str := reSubAll ed_marker_pattern author_str
    let parts :=
      if strContains author_str " et " then pySplit " et " author_str
      else if strContains author_str " and " then pySplit " and " author_str
      else if strContains author_str " - " then pySplit " - " author_str
      else [author_str]
    parts.foldl (fun acc part =>
      let clean := pyStripChars [' ', ','] part
      if clean ≠ "" ∧ clean.length > 2 then acc ++ [clean] else acc) []

/-- Body of the author-removal pattern of `extract_title` (the source's
author pattern followed by `[\.,]\s*`; its leading `^` limits `re.sub` to
one replacement at position 0, so the embedding matches at the start and
drops the matched prefix). -/
def author_strip_pattern : RE :=
  .cat (.cls upFrN)
    (.cat (RE.plus (.cls (fun c => upFrN c || pyIsSpace c || c = '\'' || c = '-')))
      (.cat (RE.plus (.alt
        (.cat (RE.plus wsP) (.cat (.cls upFrN) (.cat (.opt (RE.chr '.'))
          (.cat (.cls upFrN) (.opt (RE.chr '.'))))))
        (.cat (RE.plus wsP) (.cat (.cls upFrN)
          (RE.plus (.cls (fun c => loFrN c || c = '-')))))))
        (.cat (.cls (fun c => c = '.' || c = ',')) (RE.star wsP))))

/-- Title pattern `^(?:"|«|")([^"»"]+)(?:"|»|")` (both quote alternatives
beyond `«`/`»` are the plain ASCII quote in the source). -/
def title_pattern1 : RE :=
  .cat .bos (.cat (.alt (RE.chr '"') (.alt (RE.chr '«') (RE.chr '"')))
    (.cat (.grp 1 (RE.plus (.cls (fun c => c ≠ '"' && c ≠ '»'))))
      (.alt (RE.chr '"') (.alt (RE.chr '»') (RE.chr '"')))))

/-- Title pattern `^([^,]+?)(?:,\s+(?:dans|in|dans:|in:))`. -/
def title_pattern2 : RE :=
  .cat .bos (.cat (.grp 1 (RE.plusL (.cls (fun c => c ≠ ','))))
    (.cat (RE.chr ',') (.cat (RE.plus wsP)
      (.alt (RE.lit "dans") (.alt (RE.lit "in") (.alt (RE.lit "dans:") (RE.lit "in:")))))))

/-- Title pattern `^\((éd\.)\),\s+([^,]+)`. -/
def title_pattern3 : RE :=
  .cat .bos (.cat (RE.chr '(') (.cat (.grp 1 (RE.lit "éd."))
    (.cat (RE.chr ')') (.cat (RE.chr ',') (.cat (RE.plus wsP)
      (.grp 2 (RE.plus (.cls (fun c => c ≠ ',')))))))))

/-- Title pattern `^([^,]+?)(?:,\s+\d{4})`. -/
def title_pattern4 : RE :=
  .cat .bos (.cat (.grp 1 (RE.plusL (.cls (fun c => c ≠ ','))))
    (.cat (RE.chr ',') (.cat (RE.plus wsP) (RE.rep digitP 4))))

/-- Strip set `' ,"«»""'` of `extract_title` (as a character set). -/
def titleStripSet : List Char := [' ', ',', '"', '«', '»']

/-- Python `extract_title(text)`: try the four patterns in order (the
third takes its second group, mirroring the source's `lastindex` branch
for the `(éd.)` pattern), then fall back to the first comma chunk. -/
def extract_title (text : String) : Option String :=
  let text_without_author :=
    match reMatch0 author_strip_pattern text.data with
    | some g => String.mk (text.data.drop ((grpGet g 0).getD "").length)
    | none => text
  let tryPat := fun (r : RE) (gi : Nat) =>
    match reSearch r text_without_author with
    | none => none
    | some g =>
      let title := pyStripChars titleStripSet ((grpGet g gi).getD "")
      if title.length > 5 then some title else none
  match tryPat title_pattern1 1 with
  | some t => some t
  | none =>
  match tryPat title_pattern2 1 with
  | some t => some t
  | none =>
  match tryPat title_pattern3 2 with
  | some t => some t
  | none =>
  match tryPat title_pattern4 1 with
  | some t => some t
  | none =>
    let parts := pySplit "," text_without_author
    match parts with
    | [] => none
    | p0 :: _ => if p0.length > 5 then some (pyStripChars titleStripSet p0) else none

/-- Date pattern `\b(\d{4}(?:-\d{4})?)\b`. -/
def date_pattern1 : RE :=
  .cat .wb (.cat (.grp 1 (.cat (RE.rep digitP 4)
    (.opt (.cat (RE.chr '-') (RE.rep digitP 4))))) .wb)

/-- Date pattern `\b(\d{4};\s*\d{4})\b`. -/
def date_pattern2 : RE :=
  .cat .wb (.cat (.grp 1 (.cat (RE.rep digitP 4)
    (.cat (RE.chr ';') (.cat (RE.star wsP) (RE.rep digitP 4))))) .wb)

/-- Python `extract_publication_dates(text)`: `re.findall` each pattern in
order and return the last match of the first pattern that has any. -/
def extract_publication_dates (text : String) : Option String :=
  let m1 := reFindAll date_pattern1 1 text
  if m1 ≠ [] then m1.getLast?
  else
    let m2 := reFindAll date_pattern2 1 text
    if m2 ≠ [] then m2.getLast? else none

/-- Place pattern
`,\s+([A-ZÀ-ÝÑ][a-zà-ýñ\-]+(?:-[A-ZÀ-ÝÑ][a-zà-ýñ\-]+)?),\s+(?:\d{4}|[A-ZÀ-ÝÑ])`. -/
def place_pattern : RE :=
  .cat (RE.chr ',') (.cat (RE.plus wsP)
    (.cat (.grp 1 (.cat (.cls upFrN) (.cat (RE.plus (.cls (fun c => loFrN c || c = '-')))
      (.opt (.cat (RE.chr '-') (.cat (.cls upFrN)
        (RE.plus (.cls (fun c => loFrN c || c = '-')))))))))
      (.cat (RE.chr ',') (.cat (RE.plus wsP)
        (.alt (RE.rep digitP 4) (.cls upFrN))))))

/-- Python `extract_place(text)`: last `findall` match. -/
def extract_place (text : String) : Option String :=
  let ms := reFindAll place_pattern 1 text
  if ms ≠ [] then ms.getLast? else none

/-- First `re.search` group-1 hit over a list of patterns (the source
loops over pattern lists and keeps the first match). -/
def firstMatch1 : List RE → String → Option String
  | [], _ => none
  | r :: rest, text =>
    match (reSearch r text).bind (fun g => grpGet g 1) with
    | some v => some v
    | none => firstMatch1 rest text

/-- Result dictionary of `extract_volume_info`. -/
structure VolInfo where
  volume : Option String
  tome : Option String
  pages : Option String
deriving DecidableEq, Repr

/-- Volume patterns (compiled with `re.IGNORECASE`):
`\b(\d+\s+vol(?:umes?)?\.?)`, `\b(vol\.?\s+\d+)`, `\b(\d+\s+Bände?)`,
`\b(V\.\d+)`. -/
def vol_patterns : List RE :=
  [.cat .wb (.grp 1 (.cat (RE.plus digitP) (.cat (RE.plus wsP)
     (.cat (RE.litI "vol") (.cat (.opt (.cat (RE.litI "ume") (.opt (RE.chrI 's'))))
       (.opt (RE.chr '.'))))))),
   .cat .wb (.grp 1 (.cat (RE.litI "vol") (.cat (.opt (RE.chr '.'))
     (.cat (RE.plus wsP) (RE.plus digitP))))),
   .cat .wb (.grp 1 (.cat (RE.plus digitP) (.cat (RE.plus wsP)
     (.cat (RE.litI "Bänd") (.opt (RE.chrI 'e')))))),
   .cat .wb (.grp 1 (.cat (RE.chrI 'V') (.cat (RE.chr '.') (RE.plus digitP))))]

/-- Tome patterns (`re.IGNORECASE`): `\b(t\.?\s*\d+)`, `\b(tome\s+\d+)`,
`\b(Band\s+\d+)`. -/
def tome_patterns : List RE :=
  [.cat .wb (.grp 1 (.cat (RE.chrI 't') (.cat (.opt (RE.chr '.'))
     (.cat (RE.star wsP) (RE.plus digitP))))),
   .cat .wb (.grp 1 (.cat (RE.litI "tome") (.cat (RE.plus wsP) (RE.plus digitP)))),
   .cat .wb (.grp 1 (.cat (RE.litI "Band") (.cat (RE.plus wsP) (RE.plus digitP))))]

/-- Page patterns (`re.IGNORECASE`): `\b(p\.?\s*\d+(?:-\d+)?)`,
`\b(pp\.?\s*\d+(?:-\d+)?)`, `\b(S\.?\s*\d+(?:-\d+)?)`. -/
def page_patterns : List RE :=
  [.cat .wb (.grp 1 (.cat (RE.chrI 'p') (.cat (.opt (RE.chr '.'))
     (.cat (RE.star wsP) (.cat (RE.plus digitP)
       (.opt (.cat (RE.chr '-') (RE.plus digitP)))))))),
   .cat .wb (.grp 1 (.cat (RE.litI "pp") (.cat (.opt (RE.chr '.'))
     (.cat (RE.star wsP) (.cat (RE.plus digitP)
       (.opt (.cat (RE.chr '-') (RE.plus digitP)))))))),
   .cat .wb (.grp 1 (.cat (RE.chrI 'S') (.cat (.opt (RE.chr '.'))
     (.cat (RE.star wsP) (.cat (RE.plus digitP)
       (.opt (.cat (RE.chr '-') (RE.plus digitP))))))))]

/-- Python `extract_volume_info(text)`. -/
def extract_volume_info (text : String) : VolInfo where
  volume := firstMatch1 vol_patterns text
  tome := firstMatch1 tome_patterns text
  pages := firstMatch1 page_patterns text

/-- Series pattern (`re.IGNORECASE`):
`\(([^)]*(?:Collection|Series|Publications|Monumenta|Commission)[^)]*)\)`. -/
def series_pattern : RE :=
  .cat (RE.chr '(') (.cat (.grp 1 (.cat (RE.star (.cls (fun c => c ≠ ')')))
    (.cat (.alt (RE.litI "Collection") (.alt (RE.litI "Series")
      (.alt (RE.litI "Publications") (.alt (RE.litI "Monumenta") (RE.litI "Commission")))))
      (RE.star (.cls (fun c => c ≠ ')'))))))
    (RE.chr ')'))

/-- Python `max(matches, key=len)`: first maximal-length element. -/
def maxByLen : List String → Option String
  | [] => none
  | x :: xs => some (xs.foldl (fun best y => if y.length > best.length then y else best) x)

/-- Python `extract_series(text)`. -/
def extract_series (text : String) : Option String :=
  match maxByLen (reFindAll series_pattern 1 text) with
  | none => none
  | some series => if series.length > 10 then some series else none

/-- Pattern `,\s+dans:\s+`. -/
def dans_colon_pattern : RE :=
  .cat (RE.chr ',') (.cat (RE.plus wsP) (.cat (RE.lit "dans:") (RE.plus wsP)))

/-- Pattern `,\s+dans\s+`. -/
def dans_plain_pattern : RE :=
  .cat (RE.chr ',') (.cat (RE.plus wsP) (.cat (RE.lit "dans") (RE.plus wsP)))

/-- Pattern `,\s+in:\s+`. -/
def in_colon_pattern : RE :=
  .cat (RE.chr ',') (.cat (RE.plus wsP) (.cat (RE.lit "in:") (RE.plus wsP)))

/-- Pattern `,\s+in\s+`. -/
def in_plain_pattern : RE :=
  .cat (RE.chr ',') (.cat (RE.plus wsP) (.cat (RE.lit "in") (RE.plus wsP)))

/-- Python `detect_publication_type(text)`. -/
def detect_publication_type (text : String) : String :=
  let text_lower := pyLower text
  if reSearchB dans_colon_pattern text || reSearchB dans_plain_pattern text then
    if ["revue", "bulletin", "annales", "journal", "mémoires"].any
        (fun w => strContains text_lower w) then "article"
    else "book_chapter"
  else if reSearchB in_colon_pattern text || reSearchB in_plain_pattern text then
    "book_chapter"
  else if strContains text_lower "th." || strContains text_lower "thèse"
      || strContains text_lower "thesis" then "thesis"
  else "book"

/-- Result dictionary of `extract_journal_info`. -/
structure JournalInfo where
  journal_title : Option String
  journal_volume : Option String
  journal_issue : Option String
deriving DecidableEq, Repr

/-- Journal-title pattern (`re.IGNORECASE`): `dans:\s+([^,]+?)(?:,\s*\d+)`. -/
def journal_title_pattern : RE :=
  .cat (RE.litI "dans:") (.cat (RE.plus wsP)
    (.cat (.grp 1 (RE.plusL (.cls (fun c => c ≠ ','))))
      (.cat (RE.chr ',') (.cat (RE.star wsP) (RE.plus digitP)))))

/-- Journal-volume pattern: `,\s+(\d+)\s+\((\d{4})\)`. -/
def journal_volume_pattern : RE :=
  .cat (RE.chr ',') (.cat (RE.plus wsP) (.cat (.grp 1 (RE.plus digitP))
    (.cat (RE.plus wsP) (.cat (RE.chr '(') (.cat (.grp 2 (RE.rep digitP 4))
      (RE.chr ')'))))))

/-- Python `extract_journal_info(text, pub_type)`. -/
def extract_journal_info (text : String) (pub_type : String) : JournalInfo :=
  if pub_type ≠ "article" then ⟨none, none, none⟩
  else
    match (reSearch journal_title_pattern text).bind (fun g => grpGet g 1) with
    | none => ⟨none, none, none⟩
    | some t =>
      ⟨some (pyStrip t),
       (reSearch journal_volume_pattern text).bind (fun g => grpGet g 1),
       none⟩

def belgium_words : List String :=
  ["hainaut", "flandre", "brabant", "liège", "mons", "bruxelles",
   "bruges", "namur", "anvers", "antwerpen", "gent", "vlaanderen"]

def france_words : List String :=
  ["paris", "lyon", "abbaye", "prieuré", "france", "normandie",
   "bretagne", "bourgogne", "champagne"]

def spain_words : List String := ["santiago", "galicia", "madrid", "españa", "catedral"]

def england_words : List String :=
  ["england", "london", "oxford", "cambridge", "somerset", "glastonbury", "worcester"]

def germany_words : List String := ["deutschland", "abtei", "kloster", "urkundenbuch"]

/-- Python `detect_country(text)`: keyword sets in the source's order
(Belgium, France, Spain, England, Germany). -/
def detect_country (text : String) : Option String :=
  let text_lower := pyLower text
  if belgium_words.any (fun w => strContains text_lower w) then some "Belgium"
  else if france_words.any (fun w => strContains text_lower w) then some "France"
  else if spain_words.any (fun w => strContains text_lower w) then some "Spain"
  else if england_words.any (fun w => strContains text_lower w) then some "England"
  else if germany_words.any (fun w => strContains text_lower w) then some "Germany"
  else none

/-- Python `extract_institution_type(text)`. -/
def extract_institution_type (text : String) : Option String :=
  let tl := pyLower text
  if strContains tl "abbaye" || strContains tl "abbé" || strContains tl "abbey" then
    some "abbey"
  else if strContains tl "prieuré" || strContains tl "priory" then some "priory"
  else if strContains tl "monastère" || strContains tl "monasterium"
      || strContains tl "mosteiro" then some "monastery"
  else if strContains tl "cathédrale" || strContains tl "cathedral"
      || strContains tl "catedral" then some "cathedral"
  else if strContains tl "chapitre" || strContains tl "chapter" then some "chapter"
  else if strContains tl "hôpital" || strContains tl "hospital" then some "hospital"
  else if strContains tl "église" || strContains tl "church" then some "church"
  else none

/-- Python `detect_document_type(text)`. -/
def detect_document_type (text : String) : Option String :=
  let tl := pyLower text
  if strContains tl "cartulaire" || strContains tl "cartulary" then some "cartulary"
  else if strContains tl "charte" || strContains tl "charter" then some "charter"
  else if strContains tl "oorkonde" || strContains tl "urkunde" then some "charter"
  else if strContains tl "actes" || strContains tl "acta" then some "acts"
  else if strContains tl "registre" || strContains tl "register" then some "register"
  else if strContains tl "tumbo" then some "cartulary"
  else if strContains tl "histoire" || strContains tl "history"
      || strContains tl "geschiedenis" then some "history"
  else if strContains tl "catalogue" then some "catalogue"
  else none

/-- Python `parse_reference(line_num, text)`: the record assembler, with
field writes in the source's order. -/
def parse_reference (line_num : Nat) (text : String) : Record :=
  let result := create_json_structure line_num
  let pub := setKey result.publication "auteurs" (.list (extract_authors text))
  let pub := setKey pub "title" (optJ (extract_title text))
  let pub := setKey pub "publication_dates" (optJ (extract_publication_dates text))
  let pub := setKey pub "place_of_publication" (optJ (extract_place text))
  let ptype := detect_publication_type text
  let pub := setKey pub "publication_type" (.s ptype)
  let vol_info := extract_volume_info text
  let pub := setKey pub "volume" (optJ vol_info.volume)
  let pub := setKey pub "tome" (optJ vol_info.tome)
  let pub := setKey pub "pages" (optJ vol_info.pages)
  let pub := setKey pub "series" (optJ (extract_series text))
  let pub :=
    if ptype = "article" then
      let journal_info := extract_journal_info text "article"
      let pub := setKey pub "journal_title" (optJ journal_info.journal_title)
      setKey pub "journal_volume" (optJ journal_info.journal_volume)
    else pub
  let content := setKey result.content "country" (optJ (detect_country text))
  let content := setKey content "institution_type" (optJ (extract_institution_type text))
  let content := setKey content "document_type" (optJ (detect_document_type text))
  { publication := pub, content := content, remarks := .null }

end CEMA.ProcessRemainingRefs

namespace CEMA.RefsComplete

/-!
Embedding of `src/process_refs_1251_1500_complete.py`: the
`ReferenceParser` class (its methods become functions; the
`french_abbeys` table of `__init__` is never read by `parse` and is
omitted).
-/

/-- Class `[A-ZÀ-Ý]` (U+00C0-U+00DD). -/
def upFr (c : Char) : Bool :=
  ('A' ≤ c && c ≤ 'Z') || (0xC0 ≤ c.toNat && c.toNat ≤ 0xDD)

/-- Class `[a-zà-ý]` (U+00E0-U+00FD). -/
def loFr (c : Char) : Bool :=
  ('a' ≤ c && c ≤ 'z') || (0xE0 ≤ c.toNat && c.toNat ≤ 0xFD)

/-- Class `[a-zà-ýé\-]` (the explicit `é` lies inside `à`-`ý`). -/
def loFrE (c : Char) : Bool := loFr c || c = 'é' || c = '-'

def wsP : RE := .cls pyIsSpace

def digitP : RE := .cls Char.isDigit

def upAscii (c : Char) : Bool := 'A' ≤ c && c ≤ 'Z'

/-- Python `create_empty_result(line_num)` (publication type defaults to
`monograph`). -/
def create_empty_result (line_num : Nat) : Record where
  publication :=
    [("reference_number", .s (toString line_num)),
     ("publication_type", .s "monograph"),
     ("title", .null),
     ("auteurs", .list []),
     ("place_of_publication", .null),
     ("publisher", .null),
     ("publication_dates", .null),
     ("volume", .null),
     ("tome", .null),
     ("pages", .null),
     ("series", .null),
     ("journal_title", .null),
     ("journal_volume", .null),
     ("journal_issue", .null),
     ("container_title", .null),
     ("container_editors", .list [])]
  content :=
    [("main_institution", .null),
     ("mentioned_place", .null),
     ("region", .null),
     ("country", .null),
     ("institution_type", .null),
     ("religious_order", .null),
     ("temporal_coverage", .null),
     ("document_type", .null)]
  remarks := .null

/-- Author pattern
`^([A-ZÀ-Ý][A-ZÀ-Ý\s\'-]+(?:\s+[A-ZÀ-Ý][a-zà-ý\-]+)+(?:\s+\([^)]+\))?)`. -/
def pattern1 : RE :=
  .grp 1 (.cat (.cls upFr)
    (.cat (RE.plus (.cls (fun c => upFr c || pyIsSpace c || c = '\'' || c = '-')))
      (.cat (RE.plus (.cat (RE.plus wsP) (.cat (.cls upFr)
        (RE.plus (.cls (fun c => loFr c || c = '-'))))))
        (.opt (.cat (RE.plus wsP) (.cat (RE.chr '(')
          (.cat (RE.plus (.cls (fun c => c ≠ ')'))) (RE.chr ')'))))))))

/-- Pattern `\s*\([^)]*\)` of the author-cleanup `re.sub`. -/
def paren_pattern : RE :=
  .cat (RE.star wsP) (.cat (RE.chr '(')
    (.cat (RE.star (.cls (fun c => c ≠ ')'))) (RE.chr ')')))

/-- Inner loop of `extract_authors` for one separator: split, strip the
parenthetical, keep non-empty parts. -/
def split_clean (sep : String) (author_str : String) : List String :=
  (pySplit sep author_str).foldl (fun acc part =>
    let clean := pyStrip (reSubAll paren_pattern part)
    if clean ≠ "" then acc ++ [clean] else acc) []

/-- Python `ReferenceParser.extract_authors(text)`. -/
def extract_authors (text : String) : List String :=
  match reMatch0 pattern1 text.data with
  | none => []
  | some g =>
    let author_str := (grpGet g 1).getD ""
    if strContains author_str " et " then split_clean " et " author_str
    else if strContains author_str " and " then split_clean " and " author_str
    else if strContains author_str " - " then split_clean " - " author_str
    else
      let clean := pyStrip (reSubAll paren_pattern author_str)
      if clean ≠ "" then [clean] else []

/-- Title pattern `,\s+(?:"|«)([^"»]+)(?:"|»)`. -/
def title_pattern1 : RE :=
  .cat (RE.chr ',') (.cat (RE.plus wsP) (.cat (.alt (RE.chr '"') (RE.chr '«'))
    (.cat (.grp 1 (RE.plus (.cls (fun c => c ≠ '"' && c ≠ '»'))))
      (.alt (RE.chr '"') (RE.chr '»')))))

/-- Title pattern `,\s+([A-Z][^,]+?)(?:,\s+(?:dans|in|[A-Z][a-zà-ý]+,))`. -/
def title_pattern2 : RE :=
  .cat (RE.chr ',') (.cat (RE.plus wsP)
    (.cat (.grp 1 (.cat (.cls upAscii) (RE.plusL (.cls (fun c => c ≠ ',')))))
      (.cat (RE.chr ',') (.cat (RE.plus wsP)
        (.alt (RE.lit "dans") (.alt (RE.lit "in")
          (.cat (.cls upAscii) (.cat (RE.plus (.cls loFr)) (RE.chr ',')))))))))

/-- Title pattern `(?:éd\.\)),\s+([^,]+?)(?:,|$)`. -/
def title_pattern3 : RE :=
  .cat (RE.lit "éd.)") (.cat (RE.chr ',') (.cat (RE.plus wsP)
    (.cat (.grp 1 (RE.plusL (.cls (fun c => c ≠ ','))))
      (.alt (RE.chr ',') .eol))))

/-- Python `ReferenceParser.extract_title(text)`. -/
def extract_title (text : String) : Option String :=
  let tryPat := fun (r : RE) =>
    match (reSearch r text).bind (fun g => grpGet g 1) with
    | none => none
    | some raw =>
      let title := pyStrip raw
      let title := pyStripChars ['"', '\'', '«', '»'] title
      if title.length > 10 then some title else none
  match tryPat title_pattern1 with
  | some t => some t
  | none =>
  match tryPat title_pattern2 with
  | some t => some t
  | none =>
  match tryPat title_pattern3 with
  | some t => some t
  | none => none

/-- Result dictionary of `extract_publication_info`. -/
structure PubInfo where
  place : Option String
  publisher : Option String
  dates : Option String
deriving DecidableEq, Repr

/-- Date pattern `\b(\d{4}(?:-\d{4})?)\b` (searched with `re.search`:
first match). -/
def date_pattern : RE :=
  .cat .wb (.cat (.grp 1 (.cat (RE.rep digitP 4)
    (.opt (.cat (RE.chr '-') (RE.rep digitP 4))))) .wb)

/-- Pattern
`,\s+([A-ZÀ-Ý][a-zà-ýé\-]+(?:-[A-ZÀ-Ý][a-zà-ýé\-]+)?),\s+([^,]+?),\s+\d{4}`. -/
def place_pub_pattern : RE :=
  .cat (RE.chr ',') (.cat (RE.plus wsP)
    (.cat (.grp 1 (.cat (.cls upFr) (.cat (RE.plus (.cls loFrE))
      (.opt (.cat (RE.chr '-') (.cat (.cls upFr) (RE.plus (.cls loFrE))))))))
      (.cat (RE.chr ',') (.cat (RE.plus wsP)
        (.cat (.grp 2 (RE.plusL (.cls (fun c => c ≠ ','))))
          (.cat (RE.chr ',') (.cat (RE.plus wsP) (RE.rep digitP 4))))))))

/-- Python `ReferenceParser.extract_publication_info(text)`. -/
def extract_publication_info (text : String) : PubInfo :=
  let dates := (reSearch date_pattern text).bind (fun g => grpGet g 1)
  match reSearch place_pub_pattern text with
  | some g =>
    { place := (grpGet g 1).map pyStrip,
      publisher := (grpGet g 2).map pyStrip,
      dates := dates }
  | none => { place := none, publisher := none, dates := dates }

/-- Volume patterns (`re.IGNORECASE`): `(\d+\s+volumes?)`, `(\d+\s+vol\.?)`,
`(\d+\s+Bände?)`, `(vol\.?\s+\d+)`. -/
def vol_patterns : List RE :=
  [.grp 1 (.cat (RE.plus digitP) (.cat (RE.plus wsP)
     (.cat (RE.litI "volume") (.opt (RE.chrI 's'))))),
   .grp 1 (.cat (RE.plus digitP) (.cat (RE.plus wsP)
     (.cat (RE.litI "vol") (.opt (RE.chr '.'))))),
   .grp 1 (.cat (RE.plus digitP) (.cat (RE.plus wsP)
     (.cat (RE.litI "Bänd") (.opt (RE.chrI 'e'))))),
   .grp 1 (.cat (RE.litI "vol") (.cat (.opt (RE.chr '.'))
     (.cat (RE.plus wsP) (RE.plus digitP))))]

/-- Tome patterns (`re.IGNORECASE`): `(t\.\s+\d+)`, `(tome\s+\d+)`,
`(Band\s+\d+)`. -/
def tome_patterns : List RE :=
  [.grp 1 (.cat (RE.chrI 't') (.cat (RE.chr '.') (.cat (RE.plus wsP) (RE.plus digitP)))),
   .grp 1 (.cat (RE.litI "tome") (.cat (RE.plus wsP) (RE.plus digitP))),
   .grp 1 (.cat (RE.litI "Band") (.cat (RE.plus wsP) (RE.plus digitP)))]

/-- Page patterns (`re.IGNORECASE`): `(p\.?\s*\d+(?:-\d+)?)`,
`(pp\.?\s*\d+(?:-\d+)?)`, `(S\.?\s*\d+(?:-\d+)?)`. -/
def page_patterns : List RE :=
  [.grp 1 (.cat (RE.chrI 'p') (.cat (.opt (RE.chr '.'))
     (.cat (RE.star wsP) (.cat (RE.plus digitP)
       (.opt (.cat (RE.chr '-') (RE.plus digitP))))))),
   .grp 1 (.cat (RE.litI "pp") (.cat (.opt (RE.chr '.'))
     (.cat (RE.star wsP) (.cat (RE.plus digitP)
       (.opt (.cat (RE.chr '-') (RE.plus digitP))))))),
   .grp 1 (.cat (RE.chrI 'S') (.cat (.opt (RE.chr '.'))
     (.cat (RE.star wsP) (.cat (RE.plus digitP)
       (.opt (.cat (RE.chr '-') (RE.plus digitP)))))))]

/-- First `re.search` group-1 hit over a pattern list. -/
def firstMatch1 : List RE → String → Option String
  | [], _ => none
  | r :: rest, text =>
    match (reSearch r text).bind (fun g => grpGet g 1) with
    | some v => some v
    | none => firstMatch1 rest text

/-- Python `ReferenceParser.extract_volume_info(text)`. -/
def extract_volume_info (text : String) : ProcessRemainingRefs.VolInfo where
  volume := firstMatch1 vol_patterns text
  tome := firstMatch1 tome_patterns text
  pages := firstMatch1 page_patterns text

/-- First series pattern (`re.IGNORECASE`):
`\(([^)]*(?:Collection|Series|Publications|Monumenta)[^)]*)\)`. -/
def series_pattern_a : RE :=
  .cat (RE.chr '(') (.cat (.grp 1 (.cat (RE.star (.cls (fun c => c ≠ ')')))
    (.cat (.alt (RE.litI "Collection") (.alt (RE.litI "Series")
      (.alt (RE.litI "Publications") (RE.litI "Monumenta"))))
      (RE.star (.cls (fun c => c ≠ ')'))))))
    (RE.chr ')'))

/-- Second series pattern (`re.IGNORECASE`):
`\(([^)]*(?:collection|série)[^)]*)\)`. -/
def series_pattern_b : RE :=
  .cat (RE.chr '(') (.cat (.grp 1 (.cat (RE.star (.cls (fun c => c ≠ ')')))
    (.cat (.alt (RE.litI "collection") (RE.litI "série"))
      (RE.star (.cls (fun c => c ≠ ')'))))))
    (RE.chr ')'))

/-- Python `ReferenceParser.extract_series(text)`. -/
def extract_series (text : String) : Option String :=
  let tryPat := fun (r : RE) =>
    match (reSearch r text).bind (fun g => grpGet g 1) with
    | none => none
    | some raw =>
      let series := pyStrip raw
      if series.length > 5 then some series else none
  match tryPat series_pattern_a with
  | some s => some s
  | none =>
  match tryPat series_pattern_b with
  | some s => some s
  | none => none

/-- Pattern `,\s+dans:\s+[A-Z]`. -/
def dans_upper_pattern : RE :=
  .cat (RE.chr ',') (.cat (RE.plus wsP) (.cat (RE.lit "dans:")
    (.cat (RE.plus wsP) (.cls upAscii))))

/-- Pattern `\béd\.\b|\bed\.\b|\bdir\.\b`. -/
def editor_pattern : RE :=
  .alt (.cat .wb (.cat (RE.lit "éd.") .wb))
    (.alt (.cat .wb (.cat (RE.lit "ed.") .wb))
      (.cat .wb (.cat (RE.lit "dir.") .wb)))

/-- Pattern `,\s+in\s+[A-Z]`. -/
def in_upper_pattern : RE :=
  .cat (RE.chr ',') (.cat (RE.plus wsP) (.cat (RE.lit "in")
    (.cat (RE.plus wsP) (.cls upAscii))))

/-- Pattern `,\s+in:\s+[A-Z]`. -/
def in_colon_upper_pattern : RE :=
  .cat (RE.chr ',') (.cat (RE.plus wsP) (.cat (RE.lit "in:")
    (.cat (RE.plus wsP) (.cls upAscii))))

/-- Python `ReferenceParser.detect_publication_type(text)`: the journal
cue `(?:Revue|Bulletin|Annales|Mémoires|Journal)` is a case-sensitive
substring alternation. -/
def detect_publication_type (text : String) : String :=
  if reSearchB dans_upper_pattern text then
    if ["Revue", "Bulletin", "Annales", "Mémoires", "Journal"].any
        (fun w => strContains text w) then "article"
    else if reSearchB editor_pattern text then "chapter"
    else "article"
  else if reSearchB in_upper_pattern text || reSearchB in_colon_upper_pattern text then
    "chapter"
  else "monograph"

/-- Result dictionary of `extract_institution_info` (`temporal_coverage`
is only present on the early-return path; the base dictionary lacks the
key, read back with `.get`, so it is `none` there). -/
structure InstInfo where
  institution : Option String
  place : Option String
  type : Option String
  order : Option String
  region : Option String
  country : Option String
  temporal_coverage : Option String
deriving DecidableEq, Repr

/-- Tail of each institution pattern:
`\s+(?:de\s+|d\')?([A-ZÀ-Ý][a-zà-ýé\-]+(?:-[A-ZÀ-Ý][a-zà-ýé\-]+)*)`
(classes under `re.IGNORECASE`). -/
def inst_tail : RE :=
  .cat (RE.plus wsP) (.cat (.opt (.alt (.cat (RE.litI "de") (RE.plus wsP))
      (.cat (RE.chrI 'd') (RE.chr '\''))))
    (.grp 1 (.cat (.cls (RE.ci upFr)) (.cat (RE.plus (.cls (RE.ci loFrE)))
      (RE.star (.cat (RE.chr '-') (.cat (.cls (RE.ci upFr))
        (RE.plus (.cls (RE.ci loFrE))))))))))

/-- Institution patterns with their types, in the source's order
(`re.IGNORECASE`). -/
def inst_patterns : List (RE × String) :=
  [(.cat (.alt (RE.litI "abbaye") (RE.litI "abbé")) inst_tail, "abbey"),
   (.cat (RE.litI "prieuré") inst_tail, "priory"),
   (.cat (.alt (RE.litI "monastère") (RE.litI "monasterium")) inst_tail, "monastery"),
   (.cat (.alt (RE.litI "chapitre") (RE.litI "chapter")) inst_tail, "cathedral chapter"),
   (.cat (RE.litI "couvent")
     (.cat (RE.plus wsP) (.cat (.opt (.alt (.cat (RE.litI "de") (RE.plus wsP))
         (.cat (RE.litI "des") (RE.plus wsP))))
       (.grp 1 (.cat (.cls (RE.ci upFr)) (RE.plus (.cls (RE.ci loFrE))))))),
    "convent")]

/-- First institution pattern that matches, returning (whole match,
group 1, type). -/
def findInst : List (RE × String) → String → Option (String × String × String)
  | [], _ => none
  | (r, ty) :: rest, text =>
    match reSearch r text with
    | some g =>
      match grpGet g 0, grpGet g 1 with
      | some whole, some place_name => some (whole, place_name, ty)
      | _, _ => findInst rest text
    | none => findInst rest text

def roman (c : Char) : Bool := c = 'I' || c = 'V' || c = 'X'

/-- Temporal patterns: `\(([IVX]+e?-[IVX]+e?\s+(?:siècles?|centuries?))\)`,
`\(([IVX]+e?\s+(?:siècle|century))\)`, `\((\d{3,4}-\d{3,4})\)`. -/
def temporal_patterns : List RE :=
  [.cat (RE.chr '(') (.cat (.grp 1 (.cat (RE.plus (.cls roman))
     (.cat (.opt (RE.chr 'e')) (.cat (RE.chr '-') (.cat (RE.plus (.cls roman))
       (.cat (.opt (RE.chr 'e')) (.cat (RE.plus wsP)
         (.alt (.cat (RE.lit "siècle") (.opt (RE.chr 's')))
           (.cat (RE.lit "centurie") (.opt (RE.chr 's')))))))))))
     (RE.chr ')')),
   .cat (RE.chr '(') (.cat (.grp 1 (.cat (RE.plus (.cls roman))
     (.cat (.opt (RE.chr 'e')) (.cat (RE.plus wsP)
       (.alt (RE.lit "siècle") (RE.lit "century"))))))
     (RE.chr ')')),
   .cat (RE.chr '(') (.cat (.grp 1 (.cat (.cat (RE.rep digitP 3) (.opt digitP))
     (.cat (RE.chr '-') (.cat (RE.rep digitP 3) (.opt digitP)))))
     (RE.chr ')'))]

/-- Python `ReferenceParser.extract_institution_info(text)`. -/
def extract_institution_info (text : String) : InstInfo :=
  let info : InstInfo :=
    { institution := none, place := none, type := none,
      order := none, region := none, country := none, temporal_coverage := none }
  let info :=
    match findInst inst_patterns text with
    | some (whole, place_name, ty) =>
      { info with institution := some whole, place := some place_name, type := some ty }
    | none => info
  let tl := pyLower text
  let info :=
    if ["hainaut", "flandre", "flandre", "brabant", "liège", "mons",
        "bruxelles", "bruges"].any (fun w => strContains tl w) then
      { info with country := some "Belgium" }
    else if ["abbaye", "prieuré", "paris", "versailles", "pontoise",
        "france"].any (fun w => strContains tl w) then
      { info with country := some "France" }
    else if ["abtei", "kloster", "gent", "vlaanderen"].any
        (fun w => strContains tl w) then
      if strContains tl "gent" || strContains tl "vlaanderen" then
        { info with country := some "Belgium" }
      else
        { info with country := some "Germany" }
    else info
  match firstMatch1 temporal_patterns text with
  | some t => { info with temporal_coverage := some t }
  | none => info

/-- Document-type patterns of the complete variant (`re.IGNORECASE`):
`\bcartulai?re\b`, `\b(?:recueil|collection)\b`, `\bchartes\b`,
`\bdocuments?\b`. -/
def extract_document_type (text : String) : Option String :=
  if reSearchB (.cat .wb (.cat (RE.litI "cartula")
      (.cat (.opt (RE.chrI 'i')) (.cat (RE.litI "re") .wb)))) text then
    some "cartulary"
  else if reSearchB (.cat .wb (.cat (.alt (RE.litI "recueil") (RE.litI "collection"))
      .wb)) text then
    some "collection"
  else if reSearchB (.cat .wb (.cat (RE.litI "chartes") .wb)) text then
    some "collection"
  else if reSearchB (.cat .wb (.cat (RE.litI "document")
      (.cat (.opt (RE.chrI 's')) .wb))) text then
    some "collection"
  else none

/-- Python `ReferenceParser.parse(line_num, reference_text)`. -/
def parse (line_num : Nat) (reference_text : String) : Record :=
  let result := create_empty_result line_num
  let pub := setKey result.publication "publication_type"
    (.s (detect_publication_type reference_text))
  let authors := extract_authors reference_text
  let pub := if authors ≠ [] then setKey pub "auteurs" (.list authors) else pub
  let pub :=
    match extract_title reference_text with
    | some title => setKey pub "title" (.s title)
    | none => pub
  let pub_info := extract_publication_info reference_text
  let pub := match pub_info.place with
    | some v => setKey pub "place_of_publication" (.s v) | none => pub
  let pub := match pub_info.publisher with
    | some v => setKey pub "publisher" (.s v) | none => pub
  let pub := match pub_info.dates with
    | some v => setKey pub "publication_dates" (.s v) | none => pub
  let vol_info := extract_volume_info reference_text
  let pub := match vol_info.volume with
    | some v => setKey pub "volume" (.s v) | none => pub
  let pub := match vol_info.tome with
    | some v => setKey pub "tome" (.s v) | none => pub
  let pub := match vol_info.pages with
    | some v => setKey pub "pages" (.s v) | none => pub
  let pub := match extract_series reference_text with
    | some v => setKey pub "series" (.s v) | none => pub
  let inst_info := extract_institution_info reference_text
  let content := result.content
  let content := match inst_info.institution with
    | some v => setKey content "main_institution" (.s v) | none => content
  let content := match inst_info.place with
    | some v => setKey content "mentioned_place" (.s v) | none => content
  let content := match inst_info.type with
    | some v => setKey content "institution_type" (.s v) | none => content
  let content := match inst_info.order with
    | some v => setKey content "religious_order" (.s v) | none => content
  let content := match inst_info.region with
    | some v => setKey content "region" (.s v) | none => content
  let content := match inst_info.country with
    | some v => setKey content "country" (.s v) | none => content
  let content := match inst_info.temporal_coverage with
    | some v => setKey content "temporal_coverage" (.s v) | none => content
  let content := match extract_document_type reference_text with
    | some v => setKey content "document_type" (.s v) | none => content
  { publication := pub, content := content, remarks := .null }

end CEMA.RefsComplete

namespace CEMA

/-- Parsed JSON value, for the remote-model adapters (`json.loads`
results). Objects are insertion-ordered key/value lists, as Python dicts
preserve insertion order. -/
inductive Json where
  | null : Json
  | bool (b : Bool) : Json
  | num (n : Int) : Json
  | str (v : String) : Json
  | arr (xs : List Json) : Json
  | obj (kvs : List (String × Json)) : Json

/-- Python dict read `d.get(k)` / `d[k]`. -/
def jlookup : List (String × Json) → String → Option Json
  | [], _ => none
  | (k0, v0) :: t, k => if k0 = k then some v0 else jlookup t k

/-- Python dict assignment `d[k] = v`: an existing key keeps its position,
a new key is appended. -/
def jset : List (String × Json) → String → Json → List (String × Json)
  | [], k, v => [(k, v)]
  | (k0, v0) :: t, k, v => if k0 = k then (k, v) :: t else (k0, v0) :: jset t k v

/-- Python `key in value` on a parsed JSON value: dict-key membership on
an object, substring test on a string, element membership on a list, and
a `TypeError` elsewhere. -/
def pyIn (key : String) : Json → Except String Bool
  | .obj kvs => .ok (jlookup kvs key).isSome
  | .str v => .ok (strContains v key)
  | .arr xs => .ok (xs.any (fun j => match j with | .str w => w = key | _ => false))
  | _ => .error "Unexpected error: TypeError"

/-- Outcome of one remote-request attempt, as the adapter observes it:
a rate-limit error, another API/transport error, a response whose text
does not parse as JSON, or a parsed JSON value (`json.loads` and the
markdown-fence stripping that precedes it are abstracted into this
input). -/
inductive Attempt where
  | rateLimited : Attempt
  | apiError : Attempt
  | parseFailure : Attempt
  | parsed (j : Json) : Attempt

end CEMA

namespace CEMA.Refs1251

/-!
Embedding of `src/process_refs_1251_1500.py`: the remote-adapter response
handling of `process_reference` (lines 55-125) and the reordering
`save_json` (lines 128-141). Network calls, sleeping and file writes are
outside the embedding; each attempt's observable outcome is an input.
-/

/-- Response handling of `process_reference` after a successful
`json.loads`: when the result has a `publication` object, inject a missing
`reference_number` and rebuild the object with
`reference_number = str(line_num)` as its first key. A non-dict
`publication` value raises inside the `try` (string membership passes but
`pub.items()` fails; other types fail at `in`), which the generic
`except Exception` turns into an error return. -/
def handle_result (line_num : Nat) (result : Json) : Except String Json :=
  match pyIn "publication" result with
  | .error e => .error e
  | .ok false => .ok result
  | .ok true =>
    match result with
    | .obj kvs =>
      match jlookup kvs "publication" with
      | some (.obj pub) =>
        let pub :=
          if (jlookup pub "reference_number").isNone then
            jset pub "reference_number" (.str (toString line_num))
          else pub
        let ordered := ("reference_number", Json.str (toString line_num)) ::
          pub.filter (fun kv => kv.1 ≠ "reference_number")
        .ok (.obj (jset kvs "publication" (.obj ordered)))
      | _ => .error "Unexpected error: TypeError"
    | _ => .error "Unexpected error: TypeError"

/-- Retry loop of `process_reference`: one list element per attempt (the
list plays `range(max_retries)`, normally three elements); a parse
failure, rate limit or API error retries while attempts remain and
otherwise returns the typed failure, exactly as the source's
`attempt < max_retries - 1` branches. Returns `(result, error)`. -/
def process_reference (line_num : Nat) : List Attempt → Option Json × Option String
  | [] => (none, some "Max retries exceeded")
  | a :: rest =>
    match a with
    | .parsed j =>
      match handle_result line_num j with
      | .ok r => (some r, none)
      | .error e => (none, some e)
    | .parseFailure =>
      match rest with
      | [] => (none, some "JSON parsing error")
      | _ :: _ => process_reference line_num rest
    | .rateLimited =>
      match rest with
      | [] => (none, some "Rate limit exceeded after 3 attempts")
      | _ :: _ => process_reference line_num rest
    | .apiError =>
      match rest with
      | [] => (none, some "API error")
      | _ :: _ => process_reference line_num rest

/-- Reordering step of `save_json`: put an existing `reference_number`
first inside `publication`, keeping its value. A non-dict `publication`
raises (uncaught in `main`), modelled as an error. -/
def save_json_transform (data : Json) : Except String Json :=
  match pyIn "publication" data with
  | .error e => .error e
  | .ok false => .ok data
  | .ok true =>
    match data with
    | .obj kvs =>
      match jlookup kvs "publication" with
      | some (.obj pub) =>
        let ordered :=
          (match jlookup pub "reference_number" with
           | some v => [("reference_number", v)]
           | none => []) ++ pub.filter (fun kv => kv.1 ≠ "reference_number")
        .ok (.obj (jset kvs "publication" (.obj ordered)))
      | _ => .error "TypeError"
    | _ => .error "TypeError"

/-- What `main`'s loop body does with one citation's attempts: a non-null
result is written through `save_json`, a null result is logged to the
error log and counted as an error; nothing is ever written for it. -/
inductive Persist where
  | saved (j : Json) : Persist
  | logged (msg : String) : Persist
  | crashed (msg : String) : Persist

def main_step (line_num : Nat) (attempts : List Attempt) : Persist :=
  match process_reference line_num attempts with
  | (some result, _) =>
    match save_json_transform result with
    | .ok j => .saved j
    | .error e => .crashed e
  | (none, err) => .logged (err.getD "")

end CEMA.Refs1251

namespace CEMA.CorrectedPrompt

/-!
Embedding of `src/process_with_corrected_prompt.py`: the response handling
of `process_reference` (lines 56-113). Unlike `process_refs_1251_1500.py`
it only injects `reference_number` when the key is absent and keeps an
existing value unchanged.
-/

/-- Response handling after a successful `json.loads`:
`if 'publication' in result and 'reference_number' not in
result['publication']: result['publication']['reference_number'] =
str(line_num)`. A non-dict `publication` either short-circuits the
condition (membership holds) or raises at the assignment, caught by the
generic `except Exception`. -/
def handle_result (line_num : Nat) (result : Json) : Except String Json :=
  match pyIn "publication" result with
  | .error e => .error e
  | .ok false => .ok result
  | .ok true =>
    match result with
    | .obj kvs =>
      match jlookup kvs "publication" with
      | some pub =>
        match pyIn "reference_number" pub with
        | .error e => .error e
        | .ok true => .ok result
        | .ok false =>
          match pub with
          | .obj pubkvs =>
            .ok (.obj (jset kvs "publication"
              (.obj (jset pubkvs "reference_number" (.str (toString line_num))))))
          | _ => .error "Unexpected error: TypeError"
      | none => .ok result
    | _ => .error "Unexpected error: TypeError"

/-- Retry loop of `process_reference` (same shape as the 1251-1500
variant). -/
def process_reference (line_num : Nat) : List Attempt → Option Json × Option String
  | [] => (none, some "Max retries exceeded")
  | a :: rest =>
    match a with
    | .parsed j =>
      match handle_result line_num j with
      | .ok r => (some r, none)
      | .error e => (none, some e)
    | .parseFailure =>
      match rest with
      | [] => (none, some "JSON parsing error")
      | _ :: _ => process_reference line_num rest
    | .rateLimited =>
      match rest with
      | [] => (none, some "Rate limit exceeded after 3 attempts")
      | _ :: _ => process_reference line_num rest
    | .apiError =>
      match rest with
      | [] => (none, some "API error")
      | _ :: _ => process_reference line_num rest

/-- What `main`'s loop body does with the outcome: save on a non-null
result, log otherwise (this variant's `save_json` writes the data
unchanged). -/
def main_step (line_num : Nat) (attempts : List Attempt) : Refs1251.Persist :=
  match process_reference line_num attempts with
  | (some result, _) => .saved result
  | (none, err) => .logged (err.getD "")

end CEMA.CorrectedPrompt

namespace CEMA.ProcessRemainingRefs

/-!
Driver loop of `process_remaining_refs.py` (`main`, lines 359-417): read
the line range keeping only lines whose stripped text is non-empty, then
process each reference, skipping those whose output file already exists.
-/

/-- Reference collection of `main`: `for line_num, line in enumerate(f,
start=1): if START_LINE <= line_num <= END_LINE: text = line.strip();
if text: references.append((line_num, text))`. `n` is the number of the
first line of the remaining list. -/
def read_refs_from (start stop : Nat) (n : Nat) : List String → List (Nat × String)
  | [] => []
  | line :: rest =>
    let text := pyStrip line
    (if start ≤ n ∧ n ≤ stop ∧ text ≠ "" then [(n, text)] else []) ++
      read_refs_from start stop (n + 1) rest

def read_references (start stop : Nat) (lines : List String) : List (Nat × String) :=
  read_refs_from start stop 1 lines

/-- Processing loop of `main` over the collected references: a reference
whose output already exists is skipped (counted in `skip_count`), the
others are parsed and written (counted in `success_count`). The state is
(written records, success_count, skip_count); the `except` branch and its
`error_count` are unreachable here because `parse_reference` is total. -/
def process_refs (refs : List (Nat × String)) (already : Nat → Bool) :
    List (Nat × Record) × Nat × Nat :=
  refs.foldl (fun st r =>
    if already r.1 then (st.1, st.2.1, st.2.2 + 1)
    else (st.1 ++ [(r.1, parse_reference r.1 r.2)], st.2.1 + 1, st.2.2)) ([], 0, 0)

end CEMA.ProcessRemainingRefs

namespace CEMA.ProcessBibliography

/-!
Embedding of `get_references` of `src/process_bibliography.py` (lines
29-40): strip each line, drop an arrow-prefixed marker, keep non-empty
references with their 1-based line numbers.
-/

def get_refs_from (n : Nat) : List String → List (Nat × String)
  | [] => []
  | line :: rest =>
    let reference := pyStrip line
    let reference :=
      if reference ≠ "" ∧ strContains reference "→" then
        pyStrip (splitOnceTail "→" reference)
      else reference
    (if reference ≠ "" then [(n, reference)] else []) ++ get_refs_from (n + 1) rest

def get_references (lines : List String) : List (Nat × String) :=
  get_refs_from 1 lines

end CEMA.ProcessBibliography

namespace CEMA

/-- Scenario 1 input of the specification. -/
def scenario1 : String :=
  "DUPONT Jean, Histoire de l'abbaye de Cluny, Paris, Fayard, 1998"

/-- Keyword families of `detect_document_type` in
`process_remaining_refs.py`, in the order the code tests them (note
`histoire`/`history` is tested before `catalogue`, and `tumbo` maps to
`cartulary` after the `registre` test). -/
def document_type_priority_table : List (List String × String) :=
  [(["cartulaire", "cartulary"], "cartulary"),
   (["charte", "charter"], "charter"),
   (["oorkonde", "urkunde"], "charter"),
   (["actes", "acta"], "acts"),
   (["registre", "register"], "register"),
   (["tumbo"], "cartulary"),
   (["histoire", "history", "geschiedenis"], "history"),
   (["catalogue"], "catalogue")]

/-- Modelled from the amended claim's words: an ordered first-hit keyword
scan over substring tests on the lowercased text, returning `none` when no
family matches. -/
def scan_table (tl : String) : List (List String × String) → Option String
  | [] => none
  | (ws, ty) :: rest =>
    if ws.any (fun w => strContains tl w) then some ty else scan_table tl rest

/-- Modelled from the amended claim's words: the fixed-priority
document-type scan with the table above. -/
def scan_document_type (text : String) : Option String :=
  scan_table (pyLower text) document_type_priority_table

end CEMA

namespace CEMA

/-! Helper lemmas about the association-list operations. -/

theorem getKey_setKey_ne (l : List (String × JVal)) (k target : String) (v : JVal)
    (h : k ≠ target) : getKey (setKey l k v) target = getKey l target := by
  induction l with
  | nil => simp [setKey, getKey, h]
  | cons p t ih =>
    by_cases hk : p.1 = k
    · simp [setKey, getKey, hk, h, Ne.symm h]
    · simp only [setKey, getKey]
      rw [if_neg (by simpa using hk)]
      by_cases ht : p.1 = target <;> simp [getKey, ht, ih]

theorem jlookup_jset_self (l : List (String × Json)) (k : String) (v : Json) :
    jlookup (jset l k v) k = some v := by
  induction l with
  | nil => simp [jset, jlookup]
  | cons p t ih =>
    by_cases hk : p.1 = k
    · simp [jset, jlookup, hk]
    · simp only [jset]
      rw [if_neg (by simpa using hk)]
      simp only [jlookup]
      rw [if_neg (by simpa using hk)]
      exact ih

/-! C1: the first `publication` key is always `reference_number`, with
value `str(line_num)`, in the rule-based record and in what the
remote path of `process_refs_1251_1500.py` persists. -/

/-- C1: for every Record produced by `parse_reference`, the first key of
`publication` is `reference_number` with value `str(line_num)`; and the
remote path (`process_reference` then `save_json`) reorders/injects so the
persisted record's `publication` likewise starts with
`reference_number = str(line_num)` whenever the parsed response carries a
`publication` object. -/
theorem C1_reference_number_first :
    (∀ (n : Nat) (text : String),
      (ProcessRemainingRefs.parse_reference n text).publication.head? =
        some ("reference_number", JVal.s (toString n))) ∧
    (∀ (n : Nat) (kvs pub : List (String × Json)),
      jlookup kvs "publication" = some (.obj pub) →
      ∃ kvs2 pub2,
        (Refs1251.handle_result n (.obj kvs)).bind Refs1251.save_json_transform =
          .ok (.obj kvs2) ∧
        jlookup kvs2 "publication" = some (.obj pub2) ∧
        pub2.head? = some ("reference_number", Json.str (toString n))) := by
  constructor
  · intro n text
    unfold ProcessRemainingRefs.parse_reference
    dsimp only
    split <;> rfl
  · intro n kvs pub h
    unfold Refs1251.handle_result
    simp only [pyIn, h, Option.isSome_some, Except.bind]
    unfold Refs1251.save_json_transform
    simp only [pyIn, jlookup_jset_self, Option.isSome_some, jlookup]
    exact ⟨_, _, rfl, jlookup_jset_self _ _ _, rfl⟩

/-- Witness for C1 at a concrete remote response. -/
theorem C1_reference_number_first_witness :
    ∃ kvs2 pub2,
      (Refs1251.handle_result 7 (.obj [("publication",
          Json.obj [("title", Json.str "x"), ("reference_number", Json.str "99")])])).bind
        Refs1251.save_json_transform = .ok (.obj kvs2) ∧
      jlookup kvs2 "publication" = some (.obj pub2) ∧
      pub2.head? = some ("reference_number", Json.str (toString 7)) :=
  C1_reference_number_first.2 7 _ _ rfl

end CEMA

namespace CEMA

/-! C2: the classifier returns exactly one of the four categories, and
journal fields are non-null only for articles. -/

/-- C2: `detect_publication_type` always returns one of `article`,
`book_chapter`, `thesis`, `book` (the variant's names for the four
categories), and whenever the classified type is not `article` the
produced Record has `journal_title`, `journal_volume` and `journal_issue`
all null. -/
theorem C2_classification_partition :
    ∀ (text : String),
      (ProcessRemainingRefs.detect_publication_type text = "article" ∨
       ProcessRemainingRefs.detect_publication_type text = "book_chapter" ∨
       ProcessRemainingRefs.detect_publication_type text = "thesis" ∨
       ProcessRemainingRefs.detect_publication_type text = "book") ∧
      (∀ (n : Nat),
        ProcessRemainingRefs.detect_publication_type text ≠ "article" →
        getKey (ProcessRemainingRefs.parse_reference n text).publication
            "journal_title" = JVal.null ∧
        getKey (ProcessRemainingRefs.parse_reference n text).publication
            "journal_volume" = JVal.null ∧
        getKey (ProcessRemainingRefs.parse_reference n text).publication
            "journal_issue" = JVal.null) := by
  intro text
  constructor
  · unfold ProcessRemainingRefs.detect_publication_type
    dsimp only
    split_ifs <;> simp
  · intro n h
    unfold ProcessRemainingRefs.parse_reference
    dsimp only
    rw [if_neg h]
    exact ⟨rfl, rfl, rfl⟩

/-- Witness for C2 at a concrete non-article citation. -/
theorem C2_classification_partition_witness :
    getKey (ProcessRemainingRefs.parse_reference 3 "Un cartulaire").publication
        "journal_title" = JVal.null ∧
    getKey (ProcessRemainingRefs.parse_reference 3 "Un cartulaire").publication
        "journal_volume" = JVal.null ∧
    getKey (ProcessRemainingRefs.parse_reference 3 "Un cartulaire").publication
        "journal_issue" = JVal.null :=
  (C2_classification_partition "Un cartulaire").2 3 (by decide)

end CEMA

namespace CEMA

/-! C3: Scenario 1. -/

/-- Full evaluation of `ReferenceParser.parse` on the Scenario 1 citation
(used only by `C3_scenario1`). -/
theorem parse_scenario1_eval (n : Nat) :
    RefsComplete.parse n scenario1 =
      { publication :=
          [("reference_number", .s (toString n)),
           ("publication_type", .s "monograph"),
           ("title", .s "Histoire de l'abbaye de Cluny"),
           ("auteurs", .list ["DUPONT Jean"]),
           ("place_of_publication", .s "Paris"),
           ("publisher", .s "Fayard"),
           ("publication_dates", .s "1998"),
           ("volume", .null),
           ("tome", .null),
           ("pages", .null),
           ("series", .null),
           ("journal_title", .null),
           ("journal_volume", .null),
           ("journal_issue", .null),
           ("container_title", .null),
           ("container_editors", .list [])],
        content :=
          [("main_institution", .s "abbaye de Cluny"),
           ("mentioned_place", .s "Cluny"),
           ("region", .null),
           ("country", .s "France"),
           ("institution_type", .s "abbey"),
           ("religious_order", .null),
           ("temporal_coverage", .null),
           ("document_type", .null)],
        remarks := .null } := rfl

/-- C3: on Scenario 1's citation, for any line number, the parser yields
authors `["DUPONT Jean"]`, title `Histoire de l'abbaye de Cluny`, place
`Paris`, publisher `Fayard`, dates `1998`, institution type `abbey`,
mentioned place `Cluny`, country `France`, and the variant's default
publication type `monograph`. -/
theorem C3_scenario1 (n : Nat) :
    getKey (RefsComplete.parse n scenario1).publication "auteurs" =
      .list ["DUPONT Jean"] ∧
    getKey (RefsComplete.parse n scenario1).publication "title" =
      .s "Histoire de l'abbaye de Cluny" ∧
    getKey (RefsComplete.parse n scenario1).publication "place_of_publication" =
      .s "Paris" ∧
    getKey (RefsComplete.parse n scenario1).publication "publisher" = .s "Fayard" ∧
    getKey (RefsComplete.parse n scenario1).publication "publication_dates" =
      .s "1998" ∧
    getKey (RefsComplete.parse n scenario1).content "institution_type" = .s "abbey" ∧
    getKey (RefsComplete.parse n scenario1).content "mentioned_place" = .s "Cluny" ∧
    getKey (RefsComplete.parse n scenario1).content "country" = .s "France" ∧
    getKey (RefsComplete.parse n scenario1).publication "publication_type" =
      .s "monograph" := by
  rw [parse_scenario1_eval]
  exact ⟨rfl, rfl, rfl, rfl, rfl, rfl, rfl, rfl, rfl⟩

end CEMA

namespace CEMA

/-! C4: which year candidate the date extractors return. -/

/-- Counterexample to C4 as stated: the complete variant's
`extract_publication_info` uses `re.search` and returns the first of the
two year tokens, not the last. -/
theorem C4_counterexample :
    (RefsComplete.extract_publication_info "Chartes, entre 1100 et 1998").dates =
      some "1100" ∧
    reFindAll RefsComplete.date_pattern 1 "Chartes, entre 1100 et 1998" =
      ["1100", "1998"] :=
  ⟨rfl, rfl⟩

/-- C4 amended: in `process_remaining_refs.py`, `extract_publication_dates`
returns the last year-pattern match of the text (`matches[-1]`). -/
theorem C4_amended_last_year :
    ∀ (text m : String) (ms : List String),
      reFindAll ProcessRemainingRefs.date_pattern1 1 text = ms ++ [m] →
      ProcessRemainingRefs.extract_publication_dates text = some m := by
  intro text m ms h
  unfold ProcessRemainingRefs.extract_publication_dates
  dsimp only
  rw [h]
  simp

/-- Witness for the amended C4 on a two-year citation. -/
theorem C4_amended_last_year_witness :
    ProcessRemainingRefs.extract_publication_dates "entre 1100 et 1998" = some "1998" :=
  C4_amended_last_year "entre 1100 et 1998" "1998" ["1100"] rfl

end CEMA

namespace CEMA

/-! C5: shape of the author extractors' results. -/

/-- Elements collected by `extract_authors`' cleaning loop in
`process_remaining_refs.py` either come from the accumulator or pass the
non-empty-and-longer-than-2 filter. -/
theorem mem_authors_foldl :
    ∀ (parts acc : List String) (a : String),
      a ∈ parts.foldl (fun acc part =>
        let clean := pyStripChars [' ', ','] part
        if clean ≠ "" ∧ clean.length > 2 then acc ++ [clean] else acc) acc →
      a ∈ acc ∨ (a ≠ "" ∧ 2 < a.length) := by
  intro parts
  induction parts with
  | nil => intro acc a h; exact Or.inl h
  | cons p ps ih =>
    intro acc a h
    rw [List.foldl_cons] at h
    rcases ih _ a h with h' | h'
    · dsimp only at h'
      split at h'
      · rcases List.mem_append.mp h' with h'' | h''
        · exact Or.inl h''
        · rename_i hc
          rw [List.mem_singleton.mp h'']
          exact Or.inr ⟨hc.1, hc.2⟩
      · exact Or.inl h'
    · exact Or.inr h'

/-- Elements collected by `split_clean` in the complete variant either
come from the accumulator or are non-empty (that variant has no length
filter). -/
theorem mem_split_clean_foldl :
    ∀ (parts acc : List String) (a : String),
      a ∈ parts.foldl (fun acc part =>
        let clean := pyStrip (reSubAll RefsComplete.paren_pattern part)
        if clean ≠ "" then acc ++ [clean] else acc) acc →
      a ∈ acc ∨ a ≠ "" := by
  intro parts
  induction parts with
  | nil => intro acc a h; exact Or.inl h
  | cons p ps ih =>
    intro acc a h
    rw [List.foldl_cons] at h
    rcases ih _ a h with h' | h'
    · dsimp only at h'
      split at h'
      · rcases List.mem_append.mp h' with h'' | h''
        · exact Or.inl h''
        · rename_i hc
          rw [List.mem_singleton.mp h'']
          exact Or.inr hc
      · exact Or.inl h'
    · exact Or.inr h'

/-- A pattern that opens with a character class fails when the first input
character is outside the class (one capturing-group wrapper). -/
theorem reM_grp_cls_head_none {σ : Type} (f n : Nat) (p : Char → Bool) (r : RE)
    (pre : List Char) (c : Char) (cs : List Char) (g : Groups)
    (k : List Char → List Char → Groups → Option σ) (h : p c = false) :
    reM f (.grp n (.cat (.cls p) r)) pre (c :: cs) g k = none := by
  cases f with
  | zero => rfl
  | succ f =>
    simp only [reM]
    cases f with
    | zero => rfl
    | succ f =>
      simp only [reM]
      cases f with
      | zero => rfl
      | succ f => simp [reM, h]

/-- Same, under the extra group-0 wrapper added by the search drivers. -/
theorem reM_grp_grp_cls_head_none {σ : Type} (f n m : Nat) (p : Char → Bool) (r : RE)
    (pre : List Char) (c : Char) (cs : List Char) (g : Groups)
    (k : List Char → List Char → Groups → Option σ) (h : p c = false) :
    reM f (.grp n (.grp m (.cat (.cls p) r))) pre (c :: cs) g k = none := by
  cases f with
  | zero => rfl
  | succ f =>
    simp only [reM]
    exact reM_grp_cls_head_none f m p r pre c cs g _ h

/-- Counterexample to C5 as stated: the complete variant's author
extractor keeps the one-character segment `A` (its loop only requires
non-emptiness; the `> 2` filter exists only in
`process_remaining_refs.py`). -/
theorem C5_counterexample :
    RefsComplete.extract_authors "A - BC De, Les chartes" = ["A", "BC De"] ∧
    ("A" : String).length = 1 :=
  ⟨by decide, rfl⟩

/-- C5 amended: every author returned by `process_remaining_refs.py` has
length strictly greater than 2; every author returned by the complete
variant is non-empty (it has no length-2 filter); and both extractors
return the empty list when the text's first character is not an uppercase
letter of their leading class. -/
theorem C5_amended_author_shape :
    (∀ (text : String) (a : String),
      a ∈ ProcessRemainingRefs.extract_authors text → 2 < a.length) ∧
    (∀ (text : String) (a : String),
      a ∈ RefsComplete.extract_authors text → a ≠ "") ∧
    (∀ (text : String) (c : Char) (cs : List Char),
      text.data = c :: cs → ProcessRemainingRefs.upFrN c = false →
      ProcessRemainingRefs.extract_authors text = []) ∧
    (∀ (text : String) (c : Char) (cs : List Char),
      text.data = c :: cs → RefsComplete.upFr c = false →
      RefsComplete.extract_authors text = []) := by
  refine ⟨?_, ?_, ?_, ?_⟩
  · intro text a h
    unfold ProcessRemainingRefs.extract_authors at h
    rcases hm : reMatch0 ProcessRemainingRefs.author_pattern text.data with _ | g
    · rw [hm] at h; simp at h
    · rw [hm] at h
      dsimp only at h
      rcases mem_authors_foldl _ [] a h with h' | h'
      · simp at h'
      · exact h'.2
  · intro text a h
    unfold RefsComplete.extract_authors at h
    rcases hm : reMatch0 RefsComplete.pattern1 text.data with _ | g
    · rw [hm] at h; simp at h
    · rw [hm] at h
      dsimp only at h
      split at h
      · rcases mem_split_clean_foldl _ [] a h with h' | h'
        · simp at h'
        · exact h'
      · split at h
        · rcases mem_split_clean_foldl _ [] a h with h' | h'
          · simp at h'
          · exact h'
        · split at h
          · rcases mem_split_clean_foldl _ [] a h with h' | h'
            · simp at h'
            · exact h'
          · split at h
            · rename_i hc
              rw [List.mem_singleton.mp h]
              exact hc
            · simp at h
  · intro text c cs hd h
    unfold ProcessRemainingRefs.extract_authors
    have hnone : reMatch0 ProcessRemainingRefs.author_pattern text.data = none := by
      rw [hd]
      exact reM_grp_grp_cls_head_none _ 0 1 _ _ _ _ _ _ _ h
    rw [hnone]
  · intro text c cs hd h
    unfold RefsComplete.extract_authors
    have hnone : reMatch0 RefsComplete.pattern1 text.data = none := by
      rw [hd]
      exact reM_grp_grp_cls_head_none _ 0 1 _ _ _ _ _ _ _ h
    rw [hnone]

/-- Witness for the amended C5: a parsed author really is longer than two
characters, and a lowercase-initial citation yields no authors. -/
theorem C5_amended_author_shape_witness :
    2 < ("DUPONT Jean" : String).length ∧
    ProcessRemainingRefs.extract_authors "le cartulaire de Cluny" = [] ∧
    RefsComplete.extract_authors "le cartulaire de Cluny" = [] := by
  refine ⟨?_, ?_, ?_⟩
  · exact C5_amended_author_shape.1 scenario1 "DUPONT Jean" (by decide)
  · exact C5_amended_author_shape.2.2.1 "le cartulaire de Cluny" 'l'
      "e cartulaire de Cluny".data rfl (by decide)
  · exact C5_amended_author_shape.2.2.2 "le cartulaire de Cluny" 'l'
      "e cartulaire de Cluny".data rfl (by decide)

end CEMA

namespace CEMA

/-! C6: country priority. -/

/-- Counterexample to C6 as stated: in the complete variant, `gent` is not
in the Belgium list checked first, so a citation with both `gent` and the
France keyword `abbaye` resolves to France, not Belgium. -/
theorem C6_counterexample :
    strContains (pyLower "abbaye de Gent") "gent" = true ∧
    (RefsComplete.extract_institution_info "abbaye de Gent").country = some "France" :=
  ⟨rfl, by decide⟩

/-- C6 amended: in `process_remaining_refs.py`, `detect_country` tests the
Belgium keyword set first, so any Belgium keyword yields `Belgium`
regardless of other countries' keywords in the same text. -/
theorem C6_amended_belgium_first :
    ∀ (text : String),
      ProcessRemainingRefs.belgium_words.any
        (fun w => strContains (pyLower text) w) = true →
      ProcessRemainingRefs.detect_country text = some "Belgium" := by
  intro text h
  simp [ProcessRemainingRefs.detect_country, h]

/-- Witness for the amended C6: `gent` together with `abbaye` (France) and
`kloster` (Germany) still resolves to Belgium in this variant. -/
theorem C6_amended_belgium_first_witness :
    ProcessRemainingRefs.detect_country "Gent, abbaye et kloster" = some "Belgium" :=
  C6_amended_belgium_first "Gent, abbaye et kloster" (by decide)

end CEMA

namespace CEMA

/-! C7: document-type priority. -/

/-- Counterexample to C7 as stated: `catalogue` does not outrank
`history` — the code tests `histoire`/`history` first, so a text with both
keywords gets `history`, while the claimed order `... > catalogue > ... >
history` demands `catalogue`. -/
theorem C7_counterexample :
    strContains (pyLower "Catalogue et histoire") "catalogue" = true ∧
    ProcessRemainingRefs.detect_document_type "Catalogue et histoire" =
      some "history" :=
  ⟨rfl, rfl⟩

/-- C7 amended: `detect_document_type` is the fixed-priority first-hit
keyword scan with the order cartulary > charter (also `oorkonde`/`urkunde`)
> acts > register > `tumbo`(cartulary) > history > catalogue, and `none`
when no keyword occurs. -/
theorem C7_amended_priority_scan :
    ∀ (text : String),
      ProcessRemainingRefs.detect_document_type text = scan_document_type text := by
  intro text
  simp only [ProcessRemainingRefs.detect_document_type, scan_document_type,
    document_type_priority_table, scan_table, List.any_cons, List.any_nil,
    Bool.or_false, Bool.or_assoc]

end CEMA

namespace CEMA

/-! C8: empty lines are skipped silently. -/

/-- Every reference collected by `main`'s reading loop carries a line
number at or past the loop's current position. -/
theorem read_refs_from_mem_ge :
    ∀ (lines : List String) (start stop n m : Nat) (t : String),
      (m, t) ∈ ProcessRemainingRefs.read_refs_from start stop n lines → n ≤ m := by
  intro lines
  induction lines with
  | nil =>
    intro start stop n m t h
    simp [ProcessRemainingRefs.read_refs_from] at h
  | cons line rest ih =>
    intro start stop n m t h
    unfold ProcessRemainingRefs.read_refs_from at h
    rw [List.mem_append] at h
    rcases h with h | h
    · split at h
      · rw [List.mem_singleton] at h
        cases h
        exact Nat.le_refl n
      · simp at h
    · have := ih start stop (n + 1) m t h
      omega

/-- A line whose stripped text is empty contributes no reference to
`main`'s reading loop. -/
theorem read_refs_from_not_mem :
    ∀ (lines : List String) (i : Nat) (l : String), lines.get? i = some l →
      pyStrip l = "" →
      ∀ (start stop n : Nat) (t : String),
        (n + i, t) ∉ ProcessRemainingRefs.read_refs_from start stop n lines := by
  intro lines
  induction lines with
  | nil => intro i l hg; simp at hg
  | cons line rest ih =>
    intro i l hg hs start stop n t hmem
    unfold ProcessRemainingRefs.read_refs_from at hmem
    rw [List.mem_append] at hmem
    cases i with
    | zero =>
      have hl : line = l := by simpa using hg
      rcases hmem with h | h
      · rw [hl, hs] at h
        split at h
        · rename_i hc
          exact absurd rfl hc.2.2
        · simp at h
      · have := read_refs_from_mem_ge rest start stop (n + 1) (n + 0) t h
        omega
    | succ j =>
      rcases hmem with h | h
      · split at h
        · rw [List.mem_singleton] at h
          have : n + (j + 1) = n := congrArg Prod.fst h
          omega
        · simp at h
      · have hg' : rest.get? j = some l := by simpa using hg
        have := ih j l hg' hs start stop (n + 1) t
        rw [show n + (j + 1) = (n + 1) + j by omega] at h
        exact this h

/-- Membership in the one-element head contribution forces the head's
line number. -/
theorem mem_pair_if (m n : Nat) (t ref : String)
    (h : (m, t) ∈ (if ref ≠ "" then [(n, ref)] else ([] : List (Nat × String)))) :
    m = n := by
  split at h
  · exact congrArg Prod.fst (List.mem_singleton.mp h)
  · simp at h

/-- Same lower bound for `get_references` of `process_bibliography.py`. -/
theorem get_refs_from_mem_ge :
    ∀ (lines : List String) (n m : Nat) (t : String),
      (m, t) ∈ ProcessBibliography.get_refs_from n lines → n ≤ m := by
  intro lines
  induction lines with
  | nil =>
    intro n m t h
    simp [ProcessBibliography.get_refs_from] at h
  | cons line rest ih =>
    intro n m t h
    unfold ProcessBibliography.get_refs_from at h
    rw [List.mem_append] at h
    rcases h with h | h
    · rw [mem_pair_if m n t _ h]
    · have := ih (n + 1) m t h
      omega

/-- A line whose stripped text is empty contributes no reference to
`get_references` of `process_bibliography.py`. -/
theorem get_refs_from_not_mem :
    ∀ (lines : List String) (i : Nat) (l : String), lines.get? i = some l →
      pyStrip l = "" →
      ∀ (n : Nat) (t : String), (n + i, t) ∉ ProcessBibliography.get_refs_from n lines := by
  intro lines
  induction lines with
  | nil => intro i l hg; simp at hg
  | cons line rest ih =>
    intro i l hg hs n t hmem
    unfold ProcessBibliography.get_refs_from at hmem
    rw [List.mem_append] at hmem
    cases i with
    | zero =>
      have hl : line = l := by simpa using hg
      rcases hmem with h | h
      · rw [hl, hs] at h
        simp at h
      · have := get_refs_from_mem_ge rest (n + 1) (n + 0) t h
        omega
    | succ j =>
      rcases hmem with h | h
      · have := mem_pair_if (n + (j + 1)) n t _ h
        omega
      · have hg' : rest.get? j = some l := by simpa using hg
        have := ih j l hg' hs (n + 1) t
        rw [show n + (j + 1) = (n + 1) + j by omega] at h
        exact this h

/-- Every record written by the processing loop comes from one of the
collected references. -/
theorem process_refs_fst_mem :
    ∀ (refs : List (Nat × String)) (already : Nat → Bool)
      (init : List (Nat × Record) × Nat × Nat) (r : Nat × Record),
      r ∈ (refs.foldl (fun st x =>
        if already x.1 then (st.1, st.2.1, st.2.2 + 1)
        else (st.1 ++ [(x.1, ProcessRemainingRefs.parse_reference x.1 x.2)],
          st.2.1 + 1, st.2.2)) init).1 →
      r ∈ init.1 ∨ ∃ x ∈ refs, r.1 = x.1 := by
  intro refs
  induction refs with
  | nil => intro already init r h; exact Or.inl h
  | cons x xs ih =>
    intro already init r h
    rw [List.foldl_cons] at h
    rcases ih already _ r h with h' | h'
    · split at h'
      · exact Or.inl h'
      · rcases List.mem_append.mp h' with h'' | h''
        · exact Or.inl h''
        · refine Or.inr ⟨x, List.mem_cons_self x xs, ?_⟩
          rw [List.mem_singleton.mp h'']
    · rcases h' with ⟨y, hy, hr⟩
      exact Or.inr ⟨y, List.mem_cons_of_mem x hy, hr⟩

/-- The success and skip counters of the processing loop add up to the
number of collected references: nothing else is ever counted. -/
theorem process_refs_counts :
    ∀ (refs : List (Nat × String)) (already : Nat → Bool)
      (init : List (Nat × Record) × Nat × Nat),
      (refs.foldl (fun st x =>
        if already x.1 then (st.1, st.2.1, st.2.2 + 1)
        else (st.1 ++ [(x.1, ProcessRemainingRefs.parse_reference x.1 x.2)],
          st.2.1 + 1, st.2.2)) init).2.1 +
      (refs.foldl (fun st x =>
        if already x.1 then (st.1, st.2.1, st.2.2 + 1)
        else (st.1 ++ [(x.1, ProcessRemainingRefs.parse_reference x.1 x.2)],
          st.2.1 + 1, st.2.2)) init).2.2 = init.2.1 + init.2.2 + refs.length := by
  intro refs
  induction refs with
  | nil => intro already init; simp
  | cons x xs ih =>
    intro already init
    rw [List.foldl_cons]
    rw [ih already (if already x.1 = true then (init.1, init.2.1, init.2.2 + 1)
      else (init.1 ++ [(x.1, ProcessRemainingRefs.parse_reference x.1 x.2)],
        init.2.1 + 1, init.2.2))]
    simp only [List.length_cons]
    split <;> dsimp only <;> omega

/-- C8: a line whose text is empty after stripping enters neither
reference list (in `process_remaining_refs.py`'s `main` nor in
`process_bibliography.py`'s `get_references`), produces no Record, and is
counted toward neither the success nor the skip counter — the counters sum
exactly to the number of non-empty collected references. -/
theorem C8_empty_line_skipped :
    ∀ (start stop : Nat) (lines : List String) (i : Nat) (l : String)
      (already : Nat → Bool),
      lines.get? i = some l → pyStrip l = "" →
      (∀ t, (i + 1, t) ∉ ProcessRemainingRefs.read_references start stop lines) ∧
      (∀ t, (i + 1, t) ∉ ProcessBibliography.get_references lines) ∧
      (∀ r ∈ (ProcessRemainingRefs.process_refs
          (ProcessRemainingRefs.read_references start stop lines) already).1,
        r.1 ≠ i + 1) ∧
      (ProcessRemainingRefs.process_refs
          (ProcessRemainingRefs.read_references start stop lines) already).2.1 +
        (ProcessRemainingRefs.process_refs
          (ProcessRemainingRefs.read_references start stop lines) already).2.2 =
        (ProcessRemainingRefs.read_references start stop lines).length := by
  intro start stop lines i l already hg hs
  have h1 : ∀ t, (i + 1, t) ∉ ProcessRemainingRefs.read_references start stop lines := by
    intro t
    rw [show i + 1 = 1 + i by omega]
    exact read_refs_from_not_mem lines i l hg hs start stop 1 t
  refine ⟨h1, ?_, ?_, ?_⟩
  · intro t
    rw [show i + 1 = 1 + i by omega]
    exact get_refs_from_not_mem lines i l hg hs 1 t
  · intro r hr
    rcases process_refs_fst_mem _ already ([], 0, 0) r hr with h' | h'
    · simp at h'
    · rcases h' with ⟨x, hx, hrx⟩
      intro hne
      have hx1 : x.1 = i + 1 := hrx ▸ hne
      have hpair : (i + 1, x.2) = x := by rw [← hx1]
      exact h1 x.2 (hpair ▸ hx)
  · have := process_refs_counts (ProcessRemainingRefs.read_references start stop lines)
      already ([], 0, 0)
    simpa [ProcessRemainingRefs.process_refs] using this

/-- Witness for C8 on a concrete two-line source (first line blank). -/
theorem C8_empty_line_skipped_witness :
    (1, "X abc") ∉ ProcessRemainingRefs.read_references 1 10 ["   ", "X abc"] ∧
    (1, "X abc") ∉ ProcessBibliography.get_references ["   ", "X abc"] ∧
    (ProcessRemainingRefs.process_refs
        (ProcessRemainingRefs.read_references 1 10 ["   ", "X abc"]) (fun _ => false)).2.1 +
      (ProcessRemainingRefs.process_refs
        (ProcessRemainingRefs.read_references 1 10 ["   ", "X abc"]) (fun _ => false)).2.2 =
      (ProcessRemainingRefs.read_references 1 10 ["   ", "X abc"]).length := by
  have h := C8_empty_line_skipped 1 10 ["   ", "X abc"] 0 "   " (fun _ => false)
    rfl (by decide)
  exact ⟨h.1 "X abc", h.2.1 "X abc", h.2.2.2⟩

end CEMA

namespace CEMA

/-! C9: remote-adapter response validation. -/

/-- When every attempt's response fails to parse, the 1251-1500 adapter
returns the typed parse failure. -/
theorem refs1251_all_parse_failures :
    ∀ (attempts : List Attempt) (n : Nat), attempts ≠ [] →
      (∀ a ∈ attempts, a = .parseFailure) →
      Refs1251.process_reference n attempts = (none, some "JSON parsing error") := by
  intro attempts
  induction attempts with
  | nil => intro n h; exact absurd rfl h
  | cons a rest ih =>
    intro n _ hall
    have ha : a = .parseFailure := hall a (List.mem_cons_self a rest)
    subst ha
    cases rest with
    | nil => rfl
    | cons b bs =>
      rw [show Refs1251.process_reference n (.parseFailure :: b :: bs) =
        Refs1251.process_reference n (b :: bs) from rfl]
      exact ih n (by simp) (fun x hx => hall x (List.mem_cons_of_mem _ hx))

/-- Same for the corrected-prompt adapter. -/
theorem corrected_all_parse_failures :
    ∀ (attempts : List Attempt) (n : Nat), attempts ≠ [] →
      (∀ a ∈ attempts, a = .parseFailure) →
      CorrectedPrompt.process_reference n attempts = (none, some "JSON parsing error") := by
  intro attempts
  induction attempts with
  | nil => intro n h; exact absurd rfl h
  | cons a rest ih =>
    intro n _ hall
    have ha : a = .parseFailure := hall a (List.mem_cons_self a rest)
    subst ha
    cases rest with
    | nil => rfl
    | cons b bs =>
      rw [show CorrectedPrompt.process_reference n (.parseFailure :: b :: bs) =
        CorrectedPrompt.process_reference n (b :: bs) from rfl]
      exact ih n (by simp) (fun x hx => hall x (List.mem_cons_of_mem _ hx))

/-- Counterexample to C9 as stated: `process_with_corrected_prompt.py`
keeps a mismatched `reference_number` from the response — for
`line_num = 5` the persisted record still says `999`. -/
theorem C9_counterexample :
    CorrectedPrompt.main_step 5
        [.parsed (.obj [("publication", .obj [("reference_number", .str "999")])])] =
      .saved (.obj [("publication", .obj [("reference_number", .str "999")])]) ∧
    ("999" : String) ≠ toString 5 :=
  ⟨rfl, by decide⟩

/-- C9 amended: an unparseable response is never persisted (both adapters
log a typed failure); `process_refs_1251_1500.py` always rewrites the
persisted `publication.reference_number` to `str(line_num)` (first key);
`process_with_corrected_prompt.py` injects `str(line_num)` only when the
key is absent. -/
theorem C9_amended_response_validation :
    (∀ (n : Nat) (kvs pub : List (String × Json)),
      jlookup kvs "publication" = some (.obj pub) →
      ∃ kvs2 pub2,
        Refs1251.process_reference n [.parsed (.obj kvs)] = (some (.obj kvs2), none) ∧
        jlookup kvs2 "publication" = some (.obj pub2) ∧
        pub2.head? = some ("reference_number", .str (toString n))) ∧
    (∀ (n : Nat) (kvs pubkvs : List (String × Json)),
      jlookup kvs "publication" = some (.obj pubkvs) →
      jlookup pubkvs "reference_number" = none →
      CorrectedPrompt.process_reference n [.parsed (.obj kvs)] =
        (some (.obj (jset kvs "publication"
          (.obj (jset pubkvs "reference_number" (.str (toString n)))))), none)) ∧
    (∀ (n : Nat) (attempts : List Attempt), attempts ≠ [] →
      (∀ a ∈ attempts, a = .parseFailure) →
      Refs1251.main_step n attempts = .logged "JSON parsing error" ∧
      CorrectedPrompt.main_step n attempts = .logged "JSON parsing error") := by
  refine ⟨?_, ?_, ?_⟩
  · intro n kvs pub h
    unfold Refs1251.process_reference Refs1251.handle_result
    simp only [pyIn, h, Option.isSome_some]
    exact ⟨_, _, rfl, jlookup_jset_self _ _ _, rfl⟩
  · intro n kvs pubkvs h h2
    unfold CorrectedPrompt.process_reference CorrectedPrompt.handle_result
    simp only [pyIn, h, h2, Option.isSome_some, Option.isSome_none]
  · intro n attempts hne hall
    constructor
    · unfold Refs1251.main_step
      rw [refs1251_all_parse_failures attempts n hne hall]
      rfl
    · unfold CorrectedPrompt.main_step
      rw [corrected_all_parse_failures attempts n hne hall]
      rfl

/-- Witness for the amended C9 at concrete responses and attempts. -/
theorem C9_amended_response_validation_witness :
    (∃ kvs2 pub2,
      Refs1251.process_reference 4
          [.parsed (.obj [("publication", .obj [("title", .str "t")])])] =
        (some (.obj kvs2), none) ∧
      jlookup kvs2 "publication" = some (.obj pub2) ∧
      pub2.head? = some ("reference_number", .str (toString 4))) ∧
    CorrectedPrompt.process_reference 4
        [.parsed (.obj [("publication", .obj [("title", .str "t")])])] =
      (some (.obj (jset [("publication", Json.obj [("title", Json.str "t")])]
        "publication"
        (.obj (jset [("title", Json.str "t")] "reference_number"
          (.str (toString 4)))))), none) ∧
    Refs1251.main_step 4 [.parseFailure] = .logged "JSON parsing error" := by
  refine ⟨?_, ?_, ?_⟩
  · exact C9_amended_response_validation.1 4 _ _ rfl
  · exact C9_amended_response_validation.2.1 4 _ _ rfl rfl
  · exact (C9_amended_response_validation.2.2 4 [.parseFailure] (by simp)
      (fun a ha => List.mem_singleton.mp ha)).1

/-! C10: `religious_order` and `region` are never populated. -/

/-- The complete variant's `extract_institution_info` initializes `order`
and never assigns it. -/
theorem inst_info_order_none (text : String) :
    (RefsComplete.extract_institution_info text).order = none := by
  unfold RefsComplete.extract_institution_info
  dsimp only
  repeat' split
  all_goals rfl

/-- It likewise never assigns `region`. -/
theorem inst_info_region_none (text : String) :
    (RefsComplete.extract_institution_info text).region = none := by
  unfold RefsComplete.extract_institution_info
  dsimp only
  repeat' split
  all_goals rfl

/-- C10: in both rule-based parsers, every produced Record has
`content.religious_order` and `content.region` equal to null — the
institution extractor declares the fields but no extractor ever sets
them. -/
theorem C10_religious_order_region_null (n : Nat) (text : String) :
    getKey (ProcessRemainingRefs.parse_reference n text).content "religious_order" =
      JVal.null ∧
    getKey (ProcessRemainingRefs.parse_reference n text).content "region" = JVal.null ∧
    getKey (RefsComplete.parse n text).content "religious_order" = JVal.null ∧
    getKey (RefsComplete.parse n text).content "region" = JVal.null ∧
    (RefsComplete.extract_institution_info text).order = none ∧
    (RefsComplete.extract_institution_info text).region = none := by
  refine ⟨rfl, rfl, ?_, ?_, inst_info_order_none text, inst_info_region_none text⟩
  · unfold RefsComplete.parse
    dsimp only
    rw [inst_info_order_none text, inst_info_region_none text]
    dsimp only
    repeat' split
    all_goals rfl
  · unfold RefsComplete.parse
    dsimp only
    rw [inst_info_order_none text, inst_info_region_none text]
    dsimp only
    repeat' split
    all_goals rfl

end CEMA
